import Mathlib

/-!
A verification model of the demand-loaded GPU texture cache in
`src/DemandLoading/DemandTextureLoaderImpl.cpp` (class `DemandTextureLoader::Impl`)
and `src/DemandLoading/Internal/Utils.h`.

Modelling conventions:
* C++ `size_t` arithmetic is modelled on `Nat` with explicit wrap-around
  (`add64`/`sub64`, working modulo `2^64`) wherever the source performs
  `size_t` addition or subtraction whose wrap matters; `uint32_t` frame
  arithmetic is modelled with `sub32` (modulo `2^32`).
* C++ `int` dimensions are modelled as `Nat` (creation entry points take `Int`
  where the source checks `<= 0`); products are exact naturals, i.e. the model
  assumes the `int` products in the source do not overflow, which holds for all
  realistic texture dimensions.
* GPU (HIP) calls are modelled as succeeding; the opaque non-zero texture
  object / array handles are modelled by `Bool` ownership flags.  The external
  image decoders are modelled by oracles: a filesystem map
  `fs : String -> Option (Nat x Nat x Nat)` for `stbi_info`/`stbi_load`
  (returning width, height, channels), and `ImageSource` objects carrying
  their identity (`ptr`), content hash, and open/read outcomes.
* The engine mutex serialises every state mutation in the source, so the
  model is the sequential state-transition semantics of the locked regions.
  The host mirrors `h_textures_`/`h_residentFlags_` are modelled; the
  dirty-interval bookkeeping and the device-side copies are not (no claim
  mentions them).
* `std::unordered_map` is modelled by an association list with
  insert-at-front (so a later insert shadows an earlier binding, matching
  `operator[]` overwrite semantics observationally).
* `std::sort` over `std::tuple` (strict lexicographic `<`) is modelled by
  `List.insertionSort` under the lexicographic `<=`; the keys sorted by
  `evictIfNeeded` contain the distinct texture id as final component, so the
  sorted permutation is unique and the choice of algorithm is immaterial.
-/

namespace HipDemand

/-- `2^64`, the modulus of `size_t` arithmetic. -/
def M64 : Nat := 18446744073709551616

/-- `2^32`, the modulus of `uint32_t` arithmetic. -/
def M32 : Nat := 4294967296

/-- `size_t` addition (wraps modulo `2^64`). -/
def add64 (a b : Nat) : Nat := (a + b) % M64

/-- `size_t` subtraction (wraps modulo `2^64`); agrees with `a - b` when `b ≤ a < 2^64`. -/
def sub64 (a b : Nat) : Nat := (a % M64 + (M64 - b % M64)) % M64

/-- `uint32_t` subtraction (wraps modulo `2^32`); used for `currentFrame_ - loadedFrame`. -/
def sub32 (a b : Nat) : Nat := (a % M32 + (M32 - b % M32)) % M32

/-- Error codes (`LoaderError` in `DemandTextureLoader.h`). -/
inductive LoaderError where
  | Success
  | InvalidTextureId
  | MaxTexturesExceeded
  | FileNotFound
  | ImageLoadFailed
  | OutOfMemory
  | InvalidParameter
  | HipError
deriving DecidableEq, Repr

/-- Eviction priority (`EvictionPriority` in `DemandTextureLoader.h`). -/
inductive EvictionPriority where
  | Normal
  | Low
  | High
  | KeepResident
deriving DecidableEq, Repr

/-- Texture descriptor (`TextureDesc`).  The GPU sampler enums
(`hipTextureAddressMode`, `hipTextureFilterMode`) are opaque to every claim
and are modelled as raw `Nat` codes. -/
structure TextureDesc where
  addressMode0 : Nat := 0
  addressMode1 : Nat := 0
  filterMode : Nat := 0
  mipmapFilterMode : Nat := 0
  normalizedCoords : Bool := true
  sRGB : Bool := false
  generateMipmaps : Bool := true
  maxMipLevel : Nat := 0
  evictionPriority : EvictionPriority := .Normal
deriving DecidableEq, Repr

instance : Inhabited TextureDesc := ⟨{}⟩

/-- Handle returned by the creation entry points (`TextureHandle`). -/
structure TextureHandle where
  id : Nat := 0
  valid : Bool := false
  width : Nat := 0
  height : Nat := 0
  channels : Nat := 0
  error : LoaderError := .Success
deriving DecidableEq, Repr

instance : Inhabited TextureHandle := ⟨{}⟩

/-- Configuration options (`LoaderOptions`), with the header's defaults. -/
structure LoaderOptions where
  maxTextureMemory : Nat := 2147483648
  maxTextures : Nat := 4096
  maxRequestsPerLaunch : Nat := 1024
  enableEviction : Bool := true
  maxThreads : Nat := 0
  minResidentFrames : Nat := 3
deriving DecidableEq, Repr

/-- The loop body of `internal::calculateMipmapMemory` (Utils.h): accumulate
`width*height*bytesPerPixel` into a `size_t` total while BOTH dimensions are
still positive, halving each with integer division (no clamping to 1). -/
def mipLoop (bytesPerPixel w h acc : Nat) : Nat :=
  if hw : 0 < w ∧ 0 < h then
    mipLoop bytesPerPixel (w / 2) (h / 2) (add64 acc (w * h * bytesPerPixel))
  else acc
termination_by w
decreasing_by exact Nat.div_lt_self hw.1 (by omega)

/-- Fuel-indexed version of `mipLoop` (structurally recursive so that concrete
instances reduce inside the kernel); `mipLoopF_eq` shows it computes `mipLoop`
for any fuel exceeding the width. -/
def mipLoopF (fuel bytesPerPixel w h acc : Nat) : Nat :=
  match fuel with
  | 0 => acc
  | fuel + 1 =>
    if 0 < w ∧ 0 < h then
      mipLoopF fuel bytesPerPixel (w / 2) (h / 2) (add64 acc (w * h * bytesPerPixel))
    else acc

theorem mipLoopF_eq (bytesPerPixel : Nat) : ∀ fuel w h acc, w < fuel →
    mipLoopF fuel bytesPerPixel w h acc = mipLoop bytesPerPixel w h acc := by
  intro fuel
  induction fuel with
  | zero => intro w h acc hw; omega
  | succ f ih =>
    intro w h acc hw
    rw [mipLoopF, mipLoop]
    split
    · next hc =>
        exact ih (w / 2) (h / 2) _ (by have := Nat.div_lt_self hc.1 one_lt_two; omega)
    · rfl

/-- `internal::calculateMipmapMemory(width, height, bytesPerPixel)`. -/
def calculateMipmapMemory (width height bytesPerPixel : Nat) : Nat :=
  mipLoopF (width + 1) bytesPerPixel width height 0

/-- `calculateMipmapMemory` computes the source's `while` loop. -/
theorem calculateMipmapMemory_eq_loop (width height bytesPerPixel : Nat) :
    calculateMipmapMemory width height bytesPerPixel = mipLoop bytesPerPixel width height 0 :=
  mipLoopF_eq bytesPerPixel (width + 1) width height 0 (Nat.lt_succ_self width)

/-- The loop of `internal::calculateMipLevels`: count levels while either
dimension exceeds 1, halving with a clamp to 1. -/
def levelsLoop (w h levels : Nat) : Nat :=
  if hw : 1 < w ∨ 1 < h then
    levelsLoop (max 1 (w / 2)) (max 1 (h / 2)) (levels + 1)
  else levels
termination_by max w h
decreasing_by
  have hm : 2 ≤ max w h := by
    rcases hw with h1 | h1
    · exact le_max_of_le_left h1
    · exact le_max_of_le_right h1
  have hdiv : ∀ x : Nat, x ≤ max w h → max 1 (x / 2) < max w h := by
    intro x hx
    have h2 : x / 2 < max w h :=
      lt_of_le_of_lt (Nat.div_le_div_right hx) (Nat.div_lt_self (by omega) (by omega))
    omega
  exact Nat.max_lt.mpr ⟨hdiv w (le_max_left _ _), hdiv h (le_max_right _ _)⟩

/-- Fuel-indexed, structurally recursive version of `levelsLoop`. -/
def levelsLoopF (fuel w h levels : Nat) : Nat :=
  match fuel with
  | 0 => levels
  | fuel + 1 =>
    if 1 < w ∨ 1 < h then
      levelsLoopF fuel (max 1 (w / 2)) (max 1 (h / 2)) (levels + 1)
    else levels

theorem levelsLoopF_eq : ∀ fuel w h levels, max w h < fuel →
    levelsLoopF fuel w h levels = levelsLoop w h levels := by
  intro fuel
  induction fuel with
  | zero => intro w h levels hw; omega
  | succ f ih =>
    intro w h levels hw
    rw [levelsLoopF, levelsLoop]
    split
    · next hc =>
        apply ih
        have hm : 2 ≤ max w h := by
          rcases hc with h1 | h1
          · exact le_max_of_le_left h1
          · exact le_max_of_le_right h1
        have hdiv : ∀ x : Nat, x ≤ max w h → max 1 (x / 2) < max w h := by
          intro x hx
          have h2 : x / 2 < max w h :=
            lt_of_le_of_lt (Nat.div_le_div_right hx) (Nat.div_lt_self (by omega) (by omega))
          omega
        have h1 := hdiv w (le_max_left _ _)
        have h2 := hdiv h (le_max_right _ _)
        have := Nat.max_lt.mpr ⟨h1, h2⟩
        omega
    · rfl

/-- `internal::calculateMipLevels(width, height)`. -/
def calculateMipLevels (width height : Nat) : Nat :=
  levelsLoopF (max width height + 1) width height 1

/-- `calculateMipLevels` computes the source's `while` loop. -/
theorem calculateMipLevels_eq_loop (width height : Nat) :
    calculateMipLevels width height = levelsLoop width height 1 :=
  levelsLoopF_eq (max width height + 1) width height 1 (Nat.lt_succ_self _)

/-- Model of an `ImageSource` object handed to
`createTexture(std::shared_ptr<ImageSource>, ...)`: its pointer identity,
the value its `getHash(0)` reports, whether `open`/`isOpen` succeeds, whether
`readMipLevel` succeeds, and the dimensions its `TextureInfo` reports. -/
structure SourceObj where
  ptr : Nat
  hash : Nat
  openOk : Bool := true
  readOk : Bool := true
  width : Nat := 0
  height : Nat := 0
  channels : Nat := 4
deriving DecidableEq, Repr

/-- Per-texture host metadata (`internal::TextureMetadata`).  The GPU handles
`texObj`, `array`, `mipmapArray` are ownership flags; `cachedData` records
whether a raw pixel copy is retained (memory-created textures). -/
structure TextureMetadata where
  filename : String := ""
  imageSource : Option SourceObj := none
  desc : TextureDesc := {}
  texObj : Bool := false
  array : Bool := false
  mipmapArray : Bool := false
  width : Nat := 0
  height : Nat := 0
  channels : Nat := 0
  hasMipmaps : Bool := false
  numMipLevels : Nat := 0
  memoryUsage : Nat := 0
  lastUsedFrame : Nat := 0
  loadedFrame : Nat := 0
  resident : Bool := false
  loading : Bool := false
  lastError : LoaderError := .Success
  cachedData : Bool := false
deriving DecidableEq, Repr

instance : Inhabited TextureMetadata := ⟨{}⟩

/-- The state of `DemandTextureLoader::Impl` relevant to the host semantics. -/
structure EngineState where
  options : LoaderOptions
  textures : List TextureMetadata
  nextTextureId : Nat
  currentFrame : Nat
  totalMemoryUsage : Nat
  imageSourceToTextureId : List (Nat × Nat)
  filenameHashToTextureId : List (Nat × Nat)
  hTextures : List Bool
  hResidentFlags : List Nat
  lastRequestCount : Nat
  lastRequestOverflow : Bool
  aborted : Bool
  destroying : Bool
  lastError : LoaderError
deriving DecidableEq, Repr

/-- The freshly constructed engine (ctor of `Impl`, HIP allocations
succeeding): `textures_.resize(maxTextures)`, all counters zero, host mirrors
cleared. -/
def initState (opts : LoaderOptions) : EngineState where
  options := opts
  textures := List.replicate opts.maxTextures {}
  nextTextureId := 0
  currentFrame := 0
  totalMemoryUsage := 0
  imageSourceToTextureId := []
  filenameHashToTextureId := []
  hTextures := List.replicate opts.maxTextures false
  hResidentFlags := List.replicate ((opts.maxTextures + 31) / 32) 0
  lastRequestCount := 0
  lastRequestOverflow := false
  aborted := false
  destroying := false
  lastError := .Success

/-- `textures_[i]` (vector indexing; call sites keep `i` in bounds). -/
def getT (s : EngineState) (i : Nat) : TextureMetadata :=
  s.textures.getD i {}

/-- Association-list lookup, modelling `unordered_map::find`. -/
def lookupL (m : List (Nat × Nat)) (k : Nat) : Option Nat :=
  match m with
  | [] => none
  | (k', v) :: rest => if k' = k then some v else lookupL rest k

/-- Association-list insert/overwrite, modelling `map[key] = value`. -/
def insertL (m : List (Nat × Nat)) (k v : Nat) : List (Nat × Nat) :=
  (k, v) :: m

/-- A concrete model of `std::hash<std::string>` (implementation defined in
C++; any fixed function is faithful). -/
def strHash (str : String) : Nat :=
  str.data.foldl (fun a c => (a * 31 + c.toNat) % M64) 7

/-- The filesystem oracle: what `stbi_info`/`stbi_load` report for a path
(`some (width, height, channels)` on success). -/
def FileSys : Type := String → Option (Nat × Nat × Nat)

/-- `Impl::createTexture(const std::string&, const TextureDesc&)` (the build
without OIIO probes via `stbi_info`).  Note: a failed probe records
`FileNotFound` on the texture but still returns a valid handle with
`lastError_ = Success`. -/
def createTextureFile (fs : FileSys) (s : EngineState) (filename : String)
    (desc : TextureDesc) : TextureHandle × EngineState :=
  let filenameHash := strHash filename
  let dup : Option Nat :=
    match lookupL s.filenameHashToTextureId filenameHash with
    | some existingId =>
        -- hash-collision check: verify it is actually the same file
        if (getT s existingId).filename = filename then some existingId else none
    | none => none
  match dup with
  | some existingId =>
      let existing := getT s existingId
      ({ id := existingId, valid := true, width := existing.width,
         height := existing.height, channels := existing.channels,
         error := .Success }, s)
  | none =>
    if s.options.maxTextures ≤ s.nextTextureId then
      ({ id := 0, valid := false, error := .MaxTexturesExceeded },
       { s with lastError := .MaxTexturesExceeded })
    else
      let id := s.nextTextureId
      let meta0 : TextureMetadata := { filename := filename, desc := desc }
      let meta : TextureMetadata :=
        match fs filename with
        | some (w, h, c) => { meta0 with width := w, height := h, channels := c }
        | none => { meta0 with lastError := .FileNotFound }
      let s' := { s with
        nextTextureId := id + 1,
        filenameHashToTextureId := insertL s.filenameHashToTextureId filenameHash id,
        textures := s.textures.set id meta,
        lastError := .Success }
      ({ id := id, valid := true, width := meta.width, height := meta.height,
         channels := meta.channels, error := .Success }, s')

/-- `Impl::createTexture(std::shared_ptr<ImageSource>, const TextureDesc&)`. -/
def createTextureSource (s : EngineState) (imageSource : Option SourceObj)
    (desc : TextureDesc) : TextureHandle × EngineState :=
  match imageSource with
  | none =>
      ({ id := 0, valid := false, error := .InvalidParameter },
       { s with lastError := .InvalidParameter })
  | some src =>
    match lookupL s.imageSourceToTextureId src.ptr with
    | some existingId =>
        let existing := getT s existingId
        ({ id := existingId, valid := true, width := existing.width,
           height := existing.height, channels := existing.channels,
           error := .Success }, s)
    | none =>
      let contentHash := src.hash
      match (if contentHash ≠ 0 then lookupL s.filenameHashToTextureId contentHash
             else none) with
      | some existingId =>
          let existing := getT s existingId
          ({ id := existingId, valid := true, width := existing.width,
             height := existing.height, channels := existing.channels,
             error := .Success },
           { s with imageSourceToTextureId :=
               insertL s.imageSourceToTextureId src.ptr existingId })
      | none =>
        if s.options.maxTextures ≤ s.nextTextureId then
          ({ id := 0, valid := false, error := .MaxTexturesExceeded },
           { s with lastError := .MaxTexturesExceeded })
        else
          let id := s.nextTextureId
          let meta0 : TextureMetadata := { imageSource := some src, desc := desc }
          let meta : TextureMetadata :=
            if src.openOk then
              { meta0 with
                width := src.width,
                height := src.height,
                channels := src.channels }
            else
              { meta0 with lastError := .ImageLoadFailed }
          let s' := { s with
            nextTextureId := id + 1,
            imageSourceToTextureId := insertL s.imageSourceToTextureId src.ptr id,
            filenameHashToTextureId :=
              if contentHash ≠ 0 then insertL s.filenameHashToTextureId contentHash id
              else s.filenameHashToTextureId,
            textures := s.textures.set id meta,
            lastError := .Success }
          ({ id := id, valid := true, width := meta.width, height := meta.height,
             channels := meta.channels, error := .Success }, s')

/-- `Impl::createTextureFromMemory` (`dataOk` models `data != nullptr`). -/
def createTextureFromMemory (s : EngineState) (dataOk : Bool)
    (width height channels : Int) (desc : TextureDesc) : TextureHandle × EngineState :=
  if ¬dataOk ∨ width ≤ 0 ∨ height ≤ 0 ∨ channels ≤ 0 then
    ({ id := 0, valid := false, error := .InvalidParameter },
     { s with lastError := .InvalidParameter })
  else if s.options.maxTextures ≤ s.nextTextureId then
    ({ id := 0, valid := false, error := .MaxTexturesExceeded },
     { s with lastError := .MaxTexturesExceeded })
  else
    let id := s.nextTextureId
    let meta : TextureMetadata :=
      { filename := "",
        desc := desc,
        width := width.toNat,
        height := height.toNat,
        channels := channels.toNat,
        cachedData := true }
    let s' := { s with
      nextTextureId := id + 1,
      textures := s.textures.set id meta,
      lastError := .Success }
    ({ id := id, valid := true, width := width.toNat, height := height.toNat,
       channels := channels.toNat, error := .Success }, s')

/-- Clear bit `b` of a `uint32_t` word (`word &= ~(1u << b)`). -/
def clearBit32 (w b : Nat) : Nat := w &&& (4294967295 ^^^ (1 <<< b))

/-- Set bit `b` of a `uint32_t` word (`word |= 1u << b`). -/
def setBit32 (w b : Nat) : Nat := w ||| (1 <<< b)

/-- The texture metadata after `destroyTexture` freed its GPU resources. -/
def clearedOf (t : TextureMetadata) : TextureMetadata :=
  { t with
    texObj := false,
    mipmapArray := false,
    array := false,
    resident := false,
    hasMipmaps := false,
    numMipLevels := 0,
    memoryUsage := 0 }

/-- The state change `destroyTexture` performs on a resident texture: free the
GPU resources, clear the host mirror entries (handle, residency bit) and
subtract the texture's `memoryUsage` from the running total, zeroing it. -/
def destroyUpdate (s : EngineState) (texId : Nat) : EngineState :=
  { s with
    textures := s.textures.set texId (clearedOf (getT s texId)),
    hTextures := s.hTextures.set texId false,
    hResidentFlags := s.hResidentFlags.set (texId / 32)
      (clearBit32 (s.hResidentFlags.getD (texId / 32) 0) (texId % 32)),
    totalMemoryUsage := sub64 s.totalMemoryUsage (getT s texId).memoryUsage }

/-- `Impl::destroyTexture` (requires the engine lock): skip non-resident
textures, otherwise apply `destroyUpdate`. -/
def destroyTexture (s : EngineState) (texId : Nat) : EngineState :=
  if (getT s texId).resident = false then s
  else destroyUpdate s texId

/-- The priority score of `evictIfNeeded`'s switch: Low -> 0 (evicted first),
Normal -> 1, High -> 2; the `default` branch yields 1. -/
def priorityScore : EvictionPriority → Nat
  | .Low => 0
  | .Normal => 1
  | .High => 2
  | .KeepResident => 1

/-- The eviction candidate list of `evictIfNeeded`: resident textures that are
not KeepResident and whose wrapped age `currentFrame_ - loadedFrame` is at
least `minResidentFrames`, as tuples `(priorityScore, lastUsedFrame, id)`. -/
def evictionCandidates (s : EngineState) : List (Nat × Nat × Nat) :=
  (List.range s.nextTextureId).filterMap (fun i =>
    let tex := getT s i
    if tex.resident = false then none
    else if tex.desc.evictionPriority = .KeepResident then none
    else if sub32 s.currentFrame tex.loadedFrame < s.options.minResidentFrames then none
    else some (priorityScore tex.desc.evictionPriority, tex.lastUsedFrame, i))

/-- Lexicographic `≤` on the candidate triples (matching `std::tuple`'s
ordering; `std::sort` uses the strict form, and since the id components are
distinct the sorted permutation is the same). -/
def tripleLe (a b : Nat × Nat × Nat) : Prop :=
  a.1 < b.1 ∨ (a.1 = b.1 ∧ (a.2.1 < b.2.1 ∨ (a.2.1 = b.2.1 ∧ a.2.2 ≤ b.2.2)))

instance : DecidableRel tripleLe := fun a b => by
  unfold tripleLe; infer_instance

instance : IsTotal (Nat × Nat × Nat) tripleLe :=
  ⟨by intro a b; unfold tripleLe; omega⟩

instance : IsTrans (Nat × Nat × Nat) tripleLe :=
  ⟨by intro a b c; unfold tripleLe; omega⟩

/-- The sorted eviction list (`std::sort(evictionList.begin(), ...)`.) -/
def sortedEvictionList (s : EngineState) : List (Nat × Nat × Nat) :=
  List.insertionSort tripleLe (evictionCandidates s)

/-- The destruction walk at the end of `evictIfNeeded`: destroy candidates in
sorted order until `totalMemoryUsage_ <= targetMemory` or the list ends.
Returns the final state and the list of destroyed ids in order. -/
def evictWalk (target : Nat) : List (Nat × Nat × Nat) → EngineState → EngineState × List Nat
  | [], s => (s, [])
  | e :: rest, s =>
    if s.totalMemoryUsage ≤ target then (s, [])
    else
      let s1 := destroyTexture s e.2.2
      let res := evictWalk target rest s1
      (res.1, e.2.2 :: res.2)

/-- `Impl::evictIfNeeded(requiredMemory)`, also reporting which ids it
destroyed.  `targetMemory = maxTextureMemory - requiredMemory` is the
`size_t` subtraction, which wraps when `requiredMemory > maxTextureMemory`. -/
def evictIfNeededFull (s : EngineState) (requiredMemory : Nat) : EngineState × List Nat :=
  if s.options.maxTextureMemory = 0 then (s, [])
  else if add64 s.totalMemoryUsage requiredMemory ≤ s.options.maxTextureMemory then (s, [])
  else
    let target := sub64 s.options.maxTextureMemory requiredMemory
    evictWalk target (sortedEvictionList s) s

/-- The state after `evictIfNeeded`. -/
def evictIfNeeded (s : EngineState) (requiredMemory : Nat) : EngineState :=
  (evictIfNeededFull s requiredMemory).1

/-- The ids destroyed by `evictIfNeeded`, in destruction order. -/
def evictedIds (s : EngineState) (requiredMemory : Nat) : List Nat :=
  (evictIfNeededFull s requiredMemory).2

/-- The state change of a failed `loadTexture`: release the loading flag and
record the per-texture error. -/
def failUpdate (s : EngineState) (texId : Nat) (e : LoaderError) : EngineState :=
  { s with textures := s.textures.set texId { getT s texId with loading := false, lastError := e } }

/-- The publish step of a successful `loadTexture` (under the engine lock):
install the new metadata, write the handle into the host handle table, set
the residency bit in the host bitmap, and add the texture's `memoryUsage` to
the running total. -/
def publishUpdate (s : EngineState) (texId : Nat) (info' : TextureMetadata) : EngineState :=
  { s with
    textures := s.textures.set texId info',
    hTextures := s.hTextures.set texId true,
    hResidentFlags := s.hResidentFlags.set (texId / 32)
      (setBit32 (s.hResidentFlags.getD (texId / 32) 0) (texId % 32)),
    totalMemoryUsage := add64 s.totalMemoryUsage info'.memoryUsage }

/-- `Impl::loadTexture(texId)` with HIP calls succeeding.  Decode priority:
user `ImageSource`, then filename (via the filesystem oracle), then the
retained raw-pixel copy; failures clear the loading flag and record a
per-texture error.  On success the publish step (under the lock) installs the
handle in the host mirrors, marks the texture resident and adds its
`memoryUsage` to the running total. -/
def loadTexture (fs : FileSys) (s : EngineState) (texId : Nat) : Bool × EngineState :=
  if s.aborted then (false, s)
  else
    let info := getT s texId
    if info.resident || info.loading then (false, s)
    else
      -- the CAS claims `loading`; sequentially the claim always succeeds and
      -- the under-lock resident re-check cannot newly fire
      let decoded : Option (Nat × Nat) :=
        match info.imageSource with
        | some src => if src.openOk && src.readOk then some (src.width, src.height) else none
        | none =>
          if info.filename ≠ "" then
            match fs info.filename with
            | some (w, h, _) => some (w, h)
            | none => none
          else if info.cachedData then some (info.width, info.height)
          else none
      match decoded with
      | none =>
        -- which error is recorded depends on the branch taken
        match info.imageSource with
        | some _ => (false, failUpdate s texId .ImageLoadFailed)
        | none =>
          if info.filename ≠ "" then (false, failUpdate s texId .ImageLoadFailed)
          else (false, failUpdate s texId .InvalidParameter)
      | some (w, h) =>
        let desc := info.desc
        if desc.generateMipmaps ∧ (1 < w ∨ 1 < h) then
          let numLevels0 := calculateMipLevels w h
          let numLevels := if 0 < desc.maxMipLevel then min numLevels0 desc.maxMipLevel
                           else numLevels0
          let info' :=
            { info with
              width := w,
              height := h,
              channels := 4,
              mipmapArray := true,
              texObj := true,
              hasMipmaps := true,
              numMipLevels := numLevels,
              memoryUsage := calculateMipmapMemory w h 4,
              resident := true,
              loading := false,
              lastUsedFrame := s.currentFrame,
              loadedFrame := s.currentFrame }
          (true, publishUpdate s texId info')
        else
          let info' :=
            { info with
              width := w,
              height := h,
              channels := 4,
              array := true,
              texObj := true,
              hasMipmaps := false,
              numMipLevels := 1,
              memoryUsage := w * h * 4,
              resident := true,
              loading := false,
              lastUsedFrame := s.currentFrame,
              loadedFrame := s.currentFrame }
          (true, publishUpdate s texId info')

/-- The deduplication pass of `processRequestsHost`: walk the first
`requestCount` ring entries, keep ids that are allocated and not resident,
first occurrence only, and accumulate the estimated memory
(`calculateMipmapMemory(w, h, 4)` for textures with known positive
dimensions). -/
def collectRequests (s : EngineState) (requestCount : Nat) (requests : List Nat) :
    List Nat × Nat :=
  (List.range requestCount).foldl (fun acc i =>
    let texId := requests.getD i 0
    if texId < s.nextTextureId ∧ (getT s texId).resident = false then
      if texId ∈ acc.1 then acc
      else
        let info := getT s texId
        let est := if 0 < info.width ∧ 0 < info.height then
            add64 acc.2 (calculateMipmapMemory info.width info.height 4)
          else acc.2
        (acc.1 ++ [texId], est)
    else acc) ([], 0)

/-- `Impl::processRequestsHost`: dedup, evict if enabled and budgeted, then
load each surviving id, returning the number of successful loads. -/
def processRequestsHost (fs : FileSys) (s : EngineState) (requestCount : Nat)
    (requests : List Nat) : Nat × EngineState :=
  let collected := collectRequests s requestCount requests
  let s1 := if s.options.enableEviction ∧ 0 < s.options.maxTextureMemory ∧ 0 < collected.2
    then evictIfNeeded s collected.2 else s
  collected.1.foldl (fun acc texId =>
    let r := loadTexture fs acc.2 texId
    (acc.1 + (if r.1 then 1 else 0), r.2)) (0, s1)

/-- `Impl::processRequests(stream, deviceContext)` with the readback injected:
`devCount`/`devOverflow` are the values copied from the device atomics and
`ring` the device request buffer.  Copies and the stream sync succeed. -/
def processRequests (fs : FileSys) (s : EngineState) (ctxMaxRequests devCount devOverflow : Nat)
    (ring : List Nat) : Nat × EngineState :=
  if s.aborted then (0, s)
  else
    let copyCount := min s.options.maxRequestsPerLaunch ctxMaxRequests
    let s1 := { s with lastRequestOverflow := devOverflow != 0,
                       lastRequestCount := devCount }
    if devCount = 0 then (0, s1)
    else processRequestsHost fs s1 (min devCount copyCount) ring

/-- `Impl::processRequestsAsync` with the worker task run to completion; the
first component is whether a non-empty ticket (with a task) was returned. -/
def processRequestsAsync (fs : FileSys) (s : EngineState)
    (ctxMaxRequests devCount devOverflow : Nat) (ring : List Nat) :
    Bool × Nat × EngineState :=
  if s.destroying then (false, 0, s)
  else if s.aborted then (false, 0, s)
  else
    let copyCount := min s.options.maxRequestsPerLaunch ctxMaxRequests
    let s1 := { s with lastRequestOverflow := devOverflow != 0,
                       lastRequestCount := devCount }
    if devCount = 0 then (true, 0, s1)
    else
      let r := processRequestsHost fs s1 (min devCount copyCount) ring
      (true, r.1, r.2)

/-- `Impl::unloadTexture`. -/
def unloadTexture (s : EngineState) (texId : Nat) : EngineState :=
  destroyTexture s texId

/-- The `for (i = 0; i < nextTextureId_; ++i) destroyTexture(i)` loop shared
by `unloadAll` and `abort`. -/
def destroyRange (st : EngineState) (n : Nat) : EngineState :=
  (List.range n).foldl destroyTexture st

/-- `Impl::unloadAll`. -/
def unloadAll (s : EngineState) : EngineState :=
  destroyRange s s.nextTextureId

/-- `Impl::abort`: set the sticky flag (async draining and pool teardown are
synchronisation only), then destroy every allocated texture. -/
def abort (s : EngineState) : EngineState :=
  destroyRange { s with aborted := true } s.nextTextureId

/-- `Impl::launchPrepare` (uploads and the device-side ring reset succeed;
dirty-range bookkeeping is not modelled): advance the frame counter. -/
def launchPrepare (s : EngineState) : EngineState :=
  { s with currentFrame := (s.currentFrame + 1) % M32 }

/-- `Impl::updateEvictionPriority`. -/
def updateEvictionPriority (s : EngineState) (texId : Nat) (p : EvictionPriority) :
    EngineState :=
  if texId < s.nextTextureId then
    let tex := getT s texId
    let tex' := { tex with desc := { tex.desc with evictionPriority := p } }
    { s with textures := s.textures.set texId tex' }
  else s

/-- `Impl::setMaxTextureMemory`. -/
def setMaxTextureMemory (s : EngineState) (bytes : Nat) : EngineState :=
  { s with options := { s.options with maxTextureMemory := bytes } }

/-- `Impl::enableEviction`. -/
def enableEviction (s : EngineState) (enable : Bool) : EngineState :=
  { s with options := { s.options with enableEviction := enable } }

/-- `Impl::getResidentTextureCount`. -/
def getResidentTextureCount (s : EngineState) : Nat :=
  ((List.range s.nextTextureId).filter (fun i => (getT s i).resident)).length

/-- `Impl::getTotalTextureMemory`. -/
def getTotalTextureMemory (s : EngineState) : Nat :=
  s.totalMemoryUsage

/-- `Impl::getRequestCount`. -/
def getRequestCount (s : EngineState) : Nat :=
  s.lastRequestCount

/-- `Impl::hadRequestOverflow`. -/
def hadRequestOverflow (s : EngineState) : Bool :=
  s.lastRequestOverflow

/-- `Impl::isAborted`. -/
def isAborted (s : EngineState) : Bool :=
  s.aborted

/-- The public operations of the engine, for stating trace invariants. -/
inductive Op where
  | createFile (fs : FileSys) (filename : String) (desc : TextureDesc)
  | createSource (src : Option SourceObj) (desc : TextureDesc)
  | createMemory (dataOk : Bool) (width height channels : Int) (desc : TextureDesc)
  | processReq (fs : FileSys) (ctxMaxRequests devCount devOverflow : Nat) (ring : List Nat)
  | processReqAsync (fs : FileSys) (ctxMaxRequests devCount devOverflow : Nat) (ring : List Nat)
  | unload (texId : Nat)
  | unloadAllOp
  | abortOp
  | prepare
  | updatePriority (texId : Nat) (p : EvictionPriority)
  | setMaxMemory (bytes : Nat)
  | setEviction (enable : Bool)

/-- Apply one public operation to the engine state. -/
def applyOp (op : Op) (s : EngineState) : EngineState :=
  match op with
  | .createFile fs filename desc => (createTextureFile fs s filename desc).2
  | .createSource src desc => (createTextureSource s src desc).2
  | .createMemory dataOk w h c desc => (createTextureFromMemory s dataOk w h c desc).2
  | .processReq fs ctxMax devCount devOverflow ring =>
      (processRequests fs s ctxMax devCount devOverflow ring).2
  | .processReqAsync fs ctxMax devCount devOverflow ring =>
      (processRequestsAsync fs s ctxMax devCount devOverflow ring).2.2
  | .unload texId => unloadTexture s texId
  | .unloadAllOp => unloadAll s
  | .abortOp => abort s
  | .prepare => launchPrepare s
  | .updatePriority texId p => updateEvictionPriority s texId p
  | .setMaxMemory bytes => setMaxTextureMemory s bytes
  | .setEviction enable => enableEviction s enable

/-- Run a sequence of public operations. -/
def runOps (ops : List Op) (s : EngineState) : EngineState :=
  ops.foldl (fun st op => applyOp op st) s

/-! ## Generic helper lemmas -/

theorem getD_set_ne {α : Type} (l : List α) (i j : Nat) (x d : α) (h : i ≠ j) :
    (l.set i x).getD j d = l.getD j d := by
  simp [List.getD, List.getElem?_set, h]

theorem getD_set_self {α : Type} (l : List α) (i : Nat) (x d : α) (h : i < l.length) :
    (l.set i x).getD i d = x := by
  simp [List.getD, List.getElem?_set, h]

theorem foldl_invariant {α β : Type} (f : β → α → β) (P : β → Prop)
    (l : List α) (b : β) (hb : P b) (step : ∀ b' a, a ∈ l → P b' → P (f b' a)) :
    P (l.foldl f b) := by
  induction l generalizing b with
  | nil => exact hb
  | cons hd tl ih =>
    exact ih (f b hd) (step b hd (by simp) hb)
      (fun b' a ha => step b' a (by simp [ha]))

theorem sum_map_set {α : Type} (f : α → Nat) (l : List α) (i : Nat) (x d : α)
    (h : i < l.length) :
    ((l.set i x).map f).sum + f (l.getD i d) = (l.map f).sum + f x := by
  induction l generalizing i with
  | nil => simp at h
  | cons hd tl ih =>
    cases i with
    | zero => simp [List.getD_cons_zero]; omega
    | succ j =>
      have hj : j < tl.length := by simpa using h
      have H := ih j hj
      simp only [List.set, List.map, List.sum_cons, List.getD_cons_succ]
      omega

/-! ## Frame and characterization lemmas for the engine operations -/

/-- The scalar engine fields (everything except the texture array, the host
mirrors and the memory total) that `destroyTexture`, `loadTexture` and the
request-processing pipeline never modify. -/
def ScalarEq (s t : EngineState) : Prop :=
  t.options = s.options ∧ t.nextTextureId = s.nextTextureId ∧
  t.currentFrame = s.currentFrame ∧ t.aborted = s.aborted ∧
  t.destroying = s.destroying ∧ t.lastError = s.lastError ∧
  t.lastRequestCount = s.lastRequestCount ∧
  t.lastRequestOverflow = s.lastRequestOverflow ∧
  t.imageSourceToTextureId = s.imageSourceToTextureId ∧
  t.filenameHashToTextureId = s.filenameHashToTextureId

theorem scalarEq_refl (s : EngineState) : ScalarEq s s := by
  simp [ScalarEq]

theorem scalarEq_trans {s t u : EngineState} (h1 : ScalarEq s t) (h2 : ScalarEq t u) :
    ScalarEq s u := by
  unfold ScalarEq at *
  obtain ⟨a1, a2, a3, a4, a5, a6, a7, a8, a9, a10⟩ := h1
  obtain ⟨b1, b2, b3, b4, b5, b6, b7, b8, b9, b10⟩ := h2
  exact ⟨b1.trans a1, b2.trans a2, b3.trans a3, b4.trans a4, b5.trans a5,
         b6.trans a6, b7.trans a7, b8.trans a8, b9.trans a9, b10.trans a10⟩

/-- `destroyTexture` either leaves the state unchanged (non-resident texture)
or performs exactly `destroyUpdate`. -/
theorem destroyTexture_characterization (s : EngineState) (i : Nat) :
    destroyTexture s i = s ∨
    ((getT s i).resident = true ∧ destroyTexture s i = destroyUpdate s i) := by
  unfold destroyTexture
  by_cases h : (getT s i).resident = false
  · left; simp [h]
  · right
    refine ⟨by revert h; cases (getT s i).resident <;> simp, ?_⟩
    simp [h]

theorem destroyTexture_scalar (s : EngineState) (i : Nat) :
    ScalarEq s (destroyTexture s i) := by
  rcases destroyTexture_characterization s i with h | ⟨_, h⟩ <;>
    rw [h] <;> simp [ScalarEq, destroyUpdate]

/-- `loadTexture` either leaves the state unchanged, or fails recording a
per-texture error (loading flag released), or publishes: some metadata with
`resident = true` and `lastUsedFrame = loadedFrame = currentFrame_` is
installed together with the host mirrors, and its `memoryUsage` is added to
the running total; publication requires the texture to have been
non-resident. -/
theorem loadTexture_characterization (fs : FileSys) (st : EngineState) (i : Nat) :
    (loadTexture fs st i).2 = st ∨
    (∃ e : LoaderError, (loadTexture fs st i).1 = false ∧
      (loadTexture fs st i).2 = failUpdate st i e) ∨
    ((getT st i).resident = false ∧ (loadTexture fs st i).1 = true ∧
      ∃ info' : TextureMetadata,
        info'.resident = true ∧ info'.lastUsedFrame = st.currentFrame ∧
        info'.loadedFrame = st.currentFrame ∧
        (loadTexture fs st i).2 = publishUpdate st i info') := by
  unfold loadTexture
  by_cases hab : st.aborted
  · left; simp [hab]
  · simp only [hab, Bool.false_eq_true, if_false]
    by_cases hg : ((getT st i).resident || (getT st i).loading) = true
    · left; simp [hg]
    · have hres : (getT st i).resident = false := by
        revert hg; cases (getT st i).resident <;> simp
      simp only [hg, Bool.false_eq_true, if_false]
      cases hsrc : (getT st i).imageSource with
      | some src =>
        simp only [hsrc]
        by_cases hok : (src.openOk && src.readOk) = true
        · simp only [hok, if_true]
          by_cases hmip : (getT st i).desc.generateMipmaps ∧ (1 < src.width ∨ 1 < src.height)
          · simp only [if_pos hmip]
            exact Or.inr (Or.inr ⟨hres, by trivial, _, rfl, rfl, rfl, rfl⟩)
          · simp only [if_neg hmip]
            exact Or.inr (Or.inr ⟨hres, by trivial, _, rfl, rfl, rfl, rfl⟩)
        · simp only [hok, Bool.false_eq_true, if_false]
          exact Or.inr (Or.inl ⟨.ImageLoadFailed, by trivial, rfl⟩)
      | none =>
        simp only [hsrc]
        by_cases hfn : (getT st i).filename ≠ ""
        · cases hf : fs (getT st i).filename with
          | some whc =>
            obtain ⟨w0, h0, c0⟩ := whc
            simp only [if_pos hfn, hf]
            by_cases hmip : (getT st i).desc.generateMipmaps ∧ (1 < w0 ∨ 1 < h0)
            · simp only [if_pos hmip]
              exact Or.inr (Or.inr ⟨hres, by trivial, _, rfl, rfl, rfl, rfl⟩)
            · simp only [if_neg hmip]
              exact Or.inr (Or.inr ⟨hres, by trivial, _, rfl, rfl, rfl, rfl⟩)
          | none =>
            simp only [if_pos hfn, hf]
            exact Or.inr (Or.inl ⟨.ImageLoadFailed, by trivial, rfl⟩)
        · simp only [if_neg hfn]
          by_cases hc : (getT st i).cachedData = true
          · simp only [hc, if_true]
            by_cases hmip : (getT st i).desc.generateMipmaps ∧
                (1 < (getT st i).width ∨ 1 < (getT st i).height)
            · simp only [if_pos hmip]
              exact Or.inr (Or.inr ⟨hres, by trivial, _, rfl, rfl, rfl, rfl⟩)
            · simp only [if_neg hmip]
              exact Or.inr (Or.inr ⟨hres, by trivial, _, rfl, rfl, rfl, rfl⟩)
          · simp only [hc, Bool.false_eq_true, if_false]
            exact Or.inr (Or.inl ⟨.InvalidParameter, by trivial, rfl⟩)

theorem loadTexture_scalar (fs : FileSys) (st : EngineState) (i : Nat) :
    ScalarEq st (loadTexture fs st i).2 := by
  rcases loadTexture_characterization fs st i with h | ⟨e, _, h⟩ | ⟨_, _, info', _, _, _, h⟩ <;>
    rw [h] <;> simp [ScalarEq, failUpdate, publishUpdate]

theorem evictWalk_scalar (target : Nat) :
    ∀ (l : List (Nat × Nat × Nat)) (s : EngineState), ScalarEq s (evictWalk target l s).1 := by
  intro l
  induction l with
  | nil => intro s; exact scalarEq_refl s
  | cons e rest ih =>
    intro s
    rw [evictWalk]
    by_cases h : s.totalMemoryUsage ≤ target
    · simp only [h, if_true]; exact scalarEq_refl s
    · simp only [h, if_false]
      exact scalarEq_trans (destroyTexture_scalar s e.2.2) (ih (destroyTexture s e.2.2))

theorem evictIfNeeded_scalar (s : EngineState) (required : Nat) :
    ScalarEq s (evictIfNeeded s required) := by
  unfold evictIfNeeded evictIfNeededFull
  by_cases h1 : s.options.maxTextureMemory = 0
  · simp only [h1, if_true]; exact scalarEq_refl s
  · simp only [h1, if_false]
    by_cases h2 : add64 s.totalMemoryUsage required ≤ s.options.maxTextureMemory
    · simp only [h2, if_true]; exact scalarEq_refl s
    · simp only [h2, if_false]
      exact evictWalk_scalar _ _ s

theorem processRequestsHost_scalar (fs : FileSys) (s : EngineState)
    (requestCount : Nat) (requests : List Nat) :
    ScalarEq s (processRequestsHost fs s requestCount requests).2 := by
  unfold processRequestsHost
  apply foldl_invariant (P := fun (p : Nat × EngineState) => ScalarEq s p.2)
  · by_cases h : s.options.enableEviction ∧ 0 < s.options.maxTextureMemory ∧
        0 < (collectRequests s requestCount requests).2
    · simp only [h, if_true]; exact evictIfNeeded_scalar s _
    · simp only [h, if_false]; exact scalarEq_refl s
  · intro b a _ hb
    exact scalarEq_trans hb (loadTexture_scalar fs b.2 a)

/-- The deduplicated to-load list never exceeds the number of ring entries
examined. -/
theorem collectRequests_length_le (s : EngineState) (requestCount : Nat)
    (requests : List Nat) :
    (collectRequests s requestCount requests).1.length ≤ requestCount := by
  unfold collectRequests
  have hgen : ∀ (idxs : List Nat) (acc : List Nat × Nat),
      (idxs.foldl (fun acc i =>
        let texId := requests.getD i 0
        if texId < s.nextTextureId ∧ (getT s texId).resident = false then
          if texId ∈ acc.1 then acc
          else
            let info := getT s texId
            let est := if 0 < info.width ∧ 0 < info.height then
                add64 acc.2 (calculateMipmapMemory info.width info.height 4)
              else acc.2
            (acc.1 ++ [texId], est)
        else acc) acc).1.length ≤ acc.1.length + idxs.length := by
    intro idxs
    induction idxs with
    | nil => intro acc; simp
    | cons hd tl ih =>
      intro acc
      rw [List.foldl_cons]
      refine le_trans (ih _) ?_
      have hstep : (if requests.getD hd 0 < s.nextTextureId ∧
            (getT s (requests.getD hd 0)).resident = false then
          if requests.getD hd 0 ∈ acc.1 then acc
          else
            (acc.1 ++ [requests.getD hd 0],
             if 0 < (getT s (requests.getD hd 0)).width ∧
                0 < (getT s (requests.getD hd 0)).height then
               add64 acc.2 (calculateMipmapMemory (getT s (requests.getD hd 0)).width
                 (getT s (requests.getD hd 0)).height 4)
             else acc.2)
        else acc).1.length ≤ acc.1.length + 1 := by
        split
        · split
          · omega
          · simp
        · omega
      simp only [List.length_cons]
      omega
  have := hgen (List.range requestCount) ([], 0)
  simpa using this

/-! ## Spec-side definition for the memory-formula comparison (claim C3) -/

/-- The spec's per-texture mip-chain byte count (§4.6 "Memory usage"):
`Σ_k max(1, w/2^k) · max(1, h/2^k) · bytesPerPixel` over the texture's mip
levels.  Stated from the spec's words, for comparison with the source's
`calculateMipmapMemory`. -/
def specMipmapMemory (width height bytesPerPixel : Nat) : Nat :=
  ((List.range (calculateMipLevels width height)).map
    (fun k => max 1 (width / 2 ^ k) * max 1 (height / 2 ^ k) * bytesPerPixel)).sum

/-! ## Claim theorems -/

/-- C3: the code records `calculateMipmapMemory`, whose loop stops as soon as
EITHER halved dimension reaches 0, while the claim's formula clamps each
dimension at 1.  For the 2×1 RGBA texture the code records 8 bytes where the
claimed formula gives 12 — even though the loader allocates the full 2-level
mip chain (`calculateMipLevels 2 1 = 2`), so the recorded usage undercounts
the memory actually allocated.  This theorem evaluates the code at the
failing input, including a full engine run that loads a 2×1 texture with
mipmap generation enabled. -/
theorem c3_mipmapMemory_code_bug :
    calculateMipmapMemory 2 1 4 = 8 ∧
    specMipmapMemory 2 1 4 = 12 ∧
    calculateMipLevels 2 1 = 2 ∧
    (let s0 := (createTextureFromMemory (initState { maxTextures := 1 }) true 2 1 4 {}).2
     let r := processRequests (fun _ => none) s0 1024 1 0 [0]
     r.1 = 1 ∧ (getT r.2 0).memoryUsage = 8 ∧ (getT r.2 0).numMipLevels = 2 ∧
     getTotalTextureMemory r.2 = 8) := by
  decide

/-- C2 (amended): scenario S1 — options `{maxTextures 4, maxRequestsPerLaunch
16, maxTextureMemory 0}`, four 32×32 RGBA textures created from memory with
the default descriptor, a request ring `{0,1,2,3}` with count 4 —
`process_requests` returns 4, `resident_texture_count()` is 4, and
`total_texture_memory()` is 21840 bytes (= 4·5460 = 4·(1024+256+64+16+4+1)·4),
not the 21824 the claim states. -/
theorem c2_scenarioS1_amended :
    let opts : LoaderOptions :=
      { maxTextures := 4, maxRequestsPerLaunch := 16, maxTextureMemory := 0 }
    let s1 := (createTextureFromMemory (initState opts) true 32 32 4 {}).2
    let s2 := (createTextureFromMemory s1 true 32 32 4 {}).2
    let s3 := (createTextureFromMemory s2 true 32 32 4 {}).2
    let s4 := (createTextureFromMemory s3 true 32 32 4 {}).2
    let r := processRequests (fun _ => none) s4 16 4 0 [0, 1, 2, 3]
    r.1 = 4 ∧ getResidentTextureCount r.2 = 4 ∧ getTotalTextureMemory r.2 = 21840 := by
  decide

/-- C7: after a `process_requests` call whose ring readback reports count
`devCount` and a set overflow flag, `request_count()` returns the raw
`devCount` (even beyond the ring capacity), `had_request_overflow()` is true,
at most `maxRequestsPerLaunch` ids are considered for loading (the
deduplicated to-load list of the host pass), and the overflow is not recorded
in `last_error`. -/
theorem c7_overflow_is_not_error (fs : FileSys) (s : EngineState)
    (ctxMaxRequests devCount devOverflow : Nat) (ring : List Nat)
    (hab : s.aborted = false) (hovf : devOverflow ≠ 0) :
    getRequestCount (processRequests fs s ctxMaxRequests devCount devOverflow ring).2 = devCount ∧
    hadRequestOverflow (processRequests fs s ctxMaxRequests devCount devOverflow ring).2 = true ∧
    (collectRequests
        { s with lastRequestOverflow := devOverflow != 0, lastRequestCount := devCount }
        (min devCount (min s.options.maxRequestsPerLaunch ctxMaxRequests)) ring).1.length
      ≤ s.options.maxRequestsPerLaunch ∧
    (processRequests fs s ctxMaxRequests devCount devOverflow ring).2.lastError = s.lastError := by
  have hbne : (devOverflow != 0) = true := by
    simpa using hovf
  have hlen : (collectRequests
      { s with lastRequestOverflow := devOverflow != 0, lastRequestCount := devCount }
      (min devCount (min s.options.maxRequestsPerLaunch ctxMaxRequests)) ring).1.length
      ≤ s.options.maxRequestsPerLaunch :=
    le_trans (collectRequests_length_le _ _ _)
      (le_trans (min_le_right _ _) (min_le_left _ _))
  unfold processRequests
  rw [if_neg (by simp [hab])]
  by_cases h0 : devCount = 0
  · subst h0
    rw [if_pos rfl]
    exact ⟨rfl, hbne, hlen, rfl⟩
  · rw [if_neg h0]
    have hsc := processRequestsHost_scalar fs
      { s with lastRequestOverflow := devOverflow != 0, lastRequestCount := devCount }
      (min devCount (min s.options.maxRequestsPerLaunch ctxMaxRequests)) ring
    obtain ⟨_, _, _, _, _, he, hc, ho, _, _⟩ := hsc
    exact ⟨hc, ho.trans hbne, hlen, he⟩

/-- Witness for C7: an engine with ring capacity 2 and three textures; the
device reports count 3 (exceeding capacity) with the overflow flag set. -/
def c7StateW : EngineState :=
  (createTextureFromMemory
    ((createTextureFromMemory
      ((createTextureFromMemory
        (initState { maxTextures := 4, maxRequestsPerLaunch := 2 })
        true 4 4 4 {}).2)
      true 4 4 4 {}).2)
    true 4 4 4 {}).2

/-- C7 witness: the hypotheses hold and the theorem applies at a concrete
overflowing readback. -/
theorem c7_overflow_is_not_error_witness :
    c7StateW.aborted = false ∧ (1 : Nat) ≠ 0 ∧
    (getRequestCount (processRequests (fun _ => none) c7StateW 2 3 1 [0, 1, 2]).2 = 3 ∧
     hadRequestOverflow (processRequests (fun _ => none) c7StateW 2 3 1 [0, 1, 2]).2 = true ∧
     (collectRequests
        { c7StateW with lastRequestOverflow := (1 : Nat) != 0, lastRequestCount := 3 }
        (min 3 (min c7StateW.options.maxRequestsPerLaunch 2)) [0, 1, 2]).1.length
       ≤ c7StateW.options.maxRequestsPerLaunch ∧
     (processRequests (fun _ => none) c7StateW 2 3 1 [0, 1, 2]).2.lastError = c7StateW.lastError) :=
  ⟨by decide, by decide,
   c7_overflow_is_not_error (fun _ => none) c7StateW 2 3 1 [0, 1, 2] (by decide) (by decide)⟩

/-- C9 (amended): with a nonzero budget, `required > maxTextureMemory` makes
the `size_t` subtraction `maxTextureMemory - required` wrap to a huge target,
so the walk stops before destroying anything and the state is unchanged —
PROVIDED `totalMemoryUsage + required` does not itself overflow `2^64`.  (When
it does, the wrap of the entry guard and the wrap of the target cancel and
eviction can proceed; see the counterexample.) -/
theorem c9_required_over_budget_no_eviction (s : EngineState) (required : Nat)
    (hmax : s.options.maxTextureMemory ≠ 0)
    (hreq : s.options.maxTextureMemory < required)
    (hof : s.totalMemoryUsage + required < M64) :
    evictIfNeededFull s required = (s, []) := by
  unfold evictIfNeededFull
  rw [if_neg hmax]
  by_cases hg : add64 s.totalMemoryUsage required ≤ s.options.maxTextureMemory
  · rw [if_pos hg]
  · rw [if_neg hg]
    have hreq64 : required < M64 := by omega
    have hmax64 : s.options.maxTextureMemory < M64 := by omega
    have htot : s.totalMemoryUsage ≤ sub64 s.options.maxTextureMemory required := by
      unfold sub64
      rw [Nat.mod_eq_of_lt hmax64, Nat.mod_eq_of_lt hreq64,
          Nat.mod_eq_of_lt (by unfold M64 at *; omega)]
      omega
    cases hl : sortedEvictionList s with
    | nil => rfl
    | cons e rest =>
      show evictWalk (sub64 s.options.maxTextureMemory required) (e :: rest) s = (s, [])
      rw [evictWalk, if_pos htot]

/-- A state for exercising C9: budget 100 bytes, one resident Normal-priority
texture of 200 bytes, hold-down window disabled. -/
def c9State : EngineState where
  options := { maxTextureMemory := 100, maxTextures := 1, minResidentFrames := 0 }
  textures := [{ resident := true, memoryUsage := 200, texObj := true, array := true }]
  nextTextureId := 1
  currentFrame := 0
  totalMemoryUsage := 200
  imageSourceToTextureId := []
  filenameHashToTextureId := []
  hTextures := [true]
  hResidentFlags := [1]
  lastRequestCount := 0
  lastRequestOverflow := false
  aborted := false
  destroying := false
  lastError := .Success

/-- C9 counterexample: with budget 100 and `required = 2^64 - 1 > 100`, the
wrapped entry guard `(200 + (2^64-1)) mod 2^64 = 199 > 100` lets the walk run
and the wrapped target `(100 - (2^64-1)) mod 2^64 = 101 < 200` lets it destroy
texture 0 — so "no texture is evicted at all" is false as stated (it needs
`total + required < 2^64`). -/
theorem c9_counterexample :
    c9State.options.maxTextureMemory ≠ 0 ∧
    c9State.options.maxTextureMemory < 18446744073709551615 ∧
    evictedIds c9State 18446744073709551615 = [0] ∧
    (evictIfNeeded c9State 18446744073709551615).totalMemoryUsage = 0 ∧
    (getT (evictIfNeeded c9State 18446744073709551615) 0).resident = false := by
  decide

/-- C9 witness: the amended theorem applied at `required = 150 > 100` with no
`2^64` overflow: nothing is evicted. -/
theorem c9_required_over_budget_no_eviction_witness :
    c9State.options.maxTextureMemory ≠ 0 ∧
    c9State.options.maxTextureMemory < 150 ∧
    c9State.totalMemoryUsage + 150 < M64 ∧
    evictIfNeededFull c9State 150 = (c9State, []) :=
  ⟨by decide, by decide, by decide,
   c9_required_over_budget_no_eviction c9State 150 (by decide) (by decide) (by decide)⟩

/-! ### Per-texture effect lemmas (used for C10 and the abort semantics) -/

theorem getT_failUpdate_ne (st : EngineState) (i : Nat) (e : LoaderError) (j : Nat)
    (h : i ≠ j) : getT (failUpdate st i e) j = getT st j := by
  unfold failUpdate getT
  exact getD_set_ne _ _ _ _ _ h

theorem getT_failUpdate_self (st : EngineState) (i : Nat) (e : LoaderError) :
    (getT (failUpdate st i e) i).lastUsedFrame = (getT st i).lastUsedFrame ∧
    (getT (failUpdate st i e) i).resident = (getT st i).resident := by
  unfold failUpdate getT
  by_cases hlt : i < st.textures.length
  · rw [getD_set_self _ _ _ _ hlt]; exact ⟨rfl, rfl⟩
  · rw [List.set_eq_of_length_le (le_of_not_lt hlt)]; exact ⟨rfl, rfl⟩

theorem getT_publishUpdate_ne (st : EngineState) (i : Nat) (info' : TextureMetadata)
    (j : Nat) (h : i ≠ j) : getT (publishUpdate st i info') j = getT st j := by
  unfold publishUpdate getT
  exact getD_set_ne _ _ _ _ _ h

theorem getT_publishUpdate_self (st : EngineState) (i : Nat) (info' : TextureMetadata)
    (hlt : i < st.textures.length) : getT (publishUpdate st i info') i = info' := by
  unfold publishUpdate getT
  exact getD_set_self _ _ _ _ hlt

theorem getT_publishUpdate_oob (st : EngineState) (i : Nat) (info' : TextureMetadata)
    (hge : st.textures.length ≤ i) : getT (publishUpdate st i info') i = getT st i := by
  unfold publishUpdate getT
  rw [List.set_eq_of_length_le hge]

/-- `destroyTexture` never touches any texture's `lastUsedFrame`. -/
theorem getT_destroy_lastUsed (s : EngineState) (i j : Nat) :
    (getT (destroyTexture s i) j).lastUsedFrame = (getT s j).lastUsedFrame := by
  rcases destroyTexture_characterization s i with h | ⟨hres, h⟩
  · rw [h]
  · rw [h]
    unfold destroyUpdate getT
    by_cases hij : i = j
    · subst hij
      by_cases hlt : i < s.textures.length
      · rw [getD_set_self _ _ _ _ hlt]; rfl
      · rw [List.set_eq_of_length_le (le_of_not_lt hlt)]
    · rw [getD_set_ne _ _ _ _ _ hij]

theorem evictWalk_lastUsed (target j : Nat) :
    ∀ (l : List (Nat × Nat × Nat)) (st : EngineState),
    (getT (evictWalk target l st).1 j).lastUsedFrame = (getT st j).lastUsedFrame := by
  intro l
  induction l with
  | nil => intro st; rfl
  | cons e rest ih =>
    intro st
    rw [evictWalk]
    by_cases h : st.totalMemoryUsage ≤ target
    · rw [if_pos h]
    · rw [if_neg h]
      dsimp only
      rw [ih, getT_destroy_lastUsed]

theorem evictIfNeeded_lastUsed (s : EngineState) (required j : Nat) :
    (getT (evictIfNeeded s required) j).lastUsedFrame = (getT s j).lastUsedFrame := by
  unfold evictIfNeeded evictIfNeededFull
  by_cases h1 : s.options.maxTextureMemory = 0
  · rw [if_pos h1]
  · rw [if_neg h1]
    by_cases h2 : add64 s.totalMemoryUsage required ≤ s.options.maxTextureMemory
    · rw [if_pos h2]
    · rw [if_neg h2]
      exact evictWalk_lastUsed _ _ _ _

/-- Every id the dedup pass queues for loading is allocated and was
non-resident at collection time. -/
theorem collectRequests_mem (s : EngineState) (n : Nat) (reqs : List Nat) :
    ∀ x ∈ (collectRequests s n reqs).1,
      x < s.nextTextureId ∧ (getT s x).resident = false := by
  unfold collectRequests
  apply foldl_invariant (P := fun (acc : List Nat × Nat) =>
    ∀ x ∈ acc.1, x < s.nextTextureId ∧ (getT s x).resident = false)
  · intro x hx; simp at hx
  · intro b a _ hb
    dsimp only
    by_cases hcond : reqs.getD a 0 < s.nextTextureId ∧
        (getT s (reqs.getD a 0)).resident = false
    · rw [if_pos hcond]
      by_cases hmem : reqs.getD a 0 ∈ b.1
      · rw [if_pos hmem]; exact hb
      · rw [if_neg hmem]
        intro x hx
        rcases List.mem_append.mp hx with h | h
        · exact hb x h
        · have hx' : x = reqs.getD a 0 := by simpa using h
          rw [hx']
          exact hcond
    · rw [if_neg hcond]; exact hb

/-- A single step of the parallel-load fold preserves the "last-used frame is
either untouched or was just written by a publish" disjunction. -/
theorem loadTexture_lastUsed_step (fs : FileSys) (s : EngineState) (j : Nat)
    (b : EngineState) (a : Nat)
    (hfree : a = j → (getT s j).resident = false)
    (hcf : b.currentFrame = s.currentFrame)
    (hdis : (getT b j).lastUsedFrame = (getT s j).lastUsedFrame ∨
      ((getT s j).resident = false ∧ (getT b j).resident = true ∧
       (getT b j).lastUsedFrame = s.currentFrame)) :
    (getT (loadTexture fs b a).2 j).lastUsedFrame = (getT s j).lastUsedFrame ∨
    ((getT s j).resident = false ∧ (getT (loadTexture fs b a).2 j).resident = true ∧
     (getT (loadTexture fs b a).2 j).lastUsedFrame = s.currentFrame) := by
  by_cases haj : a = j
  · subst haj
    rcases loadTexture_characterization fs b a with h | ⟨e, _, h⟩ | ⟨hr, _, info', hri, hlu, _, h⟩
    · rw [h]; exact hdis
    · rw [h]
      have hf := getT_failUpdate_self b a e
      rcases hdis with h1 | ⟨h2a, h2b, h2c⟩
      · left; rw [hf.1, h1]
      · exact Or.inr ⟨h2a, by rw [hf.2]; exact h2b, by rw [hf.1]; exact h2c⟩
    · rw [h]
      by_cases hlt : a < b.textures.length
      · refine Or.inr ⟨hfree rfl, ?_, ?_⟩
        · rw [getT_publishUpdate_self b a info' hlt]; exact hri
        · rw [getT_publishUpdate_self b a info' hlt, hlu, hcf]
      · rw [getT_publishUpdate_oob b a info' (le_of_not_lt hlt)]
        exact hdis
  · rcases loadTexture_characterization fs b a with h | ⟨e, _, h⟩ | ⟨_, _, info', _, _, _, h⟩ <;>
      rw [h]
    · exact hdis
    · rw [getT_failUpdate_ne b a e j haj]; exact hdis
    · rw [getT_publishUpdate_ne b a info' j haj]; exact hdis

/-- Through one full `processRequests` call, a texture's `lastUsedFrame`
either keeps its old value, or the texture went from non-resident to resident
and the value is the (unchanged) current frame — i.e. `lastUsedFrame` is only
ever written by a publishing load. -/
theorem processRequests_lastUsed (fs : FileSys) (s : EngineState)
    (ctxMaxRequests devCount devOverflow : Nat) (ring : List Nat) (j : Nat) :
    (getT (processRequests fs s ctxMaxRequests devCount devOverflow ring).2 j).lastUsedFrame
      = (getT s j).lastUsedFrame ∨
    ((getT s j).resident = false ∧
     (getT (processRequests fs s ctxMaxRequests devCount devOverflow ring).2 j).resident = true ∧
     (getT (processRequests fs s ctxMaxRequests devCount devOverflow ring).2 j).lastUsedFrame
       = s.currentFrame) := by
  unfold processRequests
  by_cases hab : s.aborted = true
  · rw [if_pos hab]; left; rfl
  · rw [if_neg hab]
    by_cases h0 : devCount = 0
    · rw [if_pos h0]; left; rfl
    · rw [if_neg h0]
      unfold processRequestsHost
      refine (foldl_invariant _ (fun (p : Nat × EngineState) =>
        p.2.currentFrame = s.currentFrame ∧
        ((getT p.2 j).lastUsedFrame = (getT s j).lastUsedFrame ∨
         ((getT s j).resident = false ∧ (getT p.2 j).resident = true ∧
          (getT p.2 j).lastUsedFrame = s.currentFrame))) _ _ ?_ ?_).2
      · -- base: after the (possible) eviction
        constructor
        · dsimp only
          split
          · exact (evictIfNeeded_scalar _ _).2.2.1
          · rfl
        · dsimp only
          split
          · exact Or.inl (evictIfNeeded_lastUsed _ _ _)
          · exact Or.inl rfl
      · -- step: one load
        intro b a ha hb
        refine ⟨?_, ?_⟩
        · rw [(loadTexture_scalar fs b.2 a).2.2.1]; exact hb.1
        · refine loadTexture_lastUsed_step fs s j b.2 a ?_ hb.1 hb.2
          intro haj
          subst haj
          exact (collectRequests_mem _ _ _ a ha).2

/-- C10: a request for an id that is already resident never updates that
texture's `last_used_frame` (requests for resident ids are filtered out
before loading and nothing else writes the field), and any texture whose
`last_used_frame` did change was just published: it went from non-resident to
resident with `last_used_frame = current_frame`.  Eviction tie-breaking among
equal-priority textures therefore reflects load order, not the most recent
frame in which the texture was sampled. -/
theorem c10_resident_request_lastUsedFrame (fs : FileSys) (s : EngineState)
    (ctxMaxRequests devCount devOverflow : Nat) (ring : List Nat) (texId : Nat)
    (hres : (getT s texId).resident = true) :
    (getT (processRequests fs s ctxMaxRequests devCount devOverflow ring).2 texId).lastUsedFrame
      = (getT s texId).lastUsedFrame ∧
    (∀ j, (getT (processRequests fs s ctxMaxRequests devCount devOverflow ring).2 j).lastUsedFrame
        ≠ (getT s j).lastUsedFrame →
      (getT s j).resident = false ∧
      (getT (processRequests fs s ctxMaxRequests devCount devOverflow ring).2 j).resident = true ∧
      (getT (processRequests fs s ctxMaxRequests devCount devOverflow ring).2 j).lastUsedFrame
        = s.currentFrame) := by
  constructor
  · rcases processRequests_lastUsed fs s ctxMaxRequests devCount devOverflow ring texId with
      h | ⟨h2a, _, _⟩
    · exact h
    · rw [h2a] at hres; cases hres
  · intro j hne
    rcases processRequests_lastUsed fs s ctxMaxRequests devCount devOverflow ring j with
      h | h2
    · exact absurd h hne
    · exact h2

/-- C10 witness: texture 0 is resident with `lastUsedFrame = 5`; a new
request for id 0 (plus a load of id 1) leaves its `lastUsedFrame` at 5. -/
def c10StateW : EngineState where
  options := { maxTextures := 2, maxTextureMemory := 0 }
  textures :=
    [{ resident := true, memoryUsage := 64, texObj := true, array := true,
       width := 4, height := 4, channels := 4, lastUsedFrame := 5, loadedFrame := 5,
       cachedData := true },
     { resident := false, width := 4, height := 4, channels := 4, cachedData := true }]
  nextTextureId := 2
  currentFrame := 9
  totalMemoryUsage := 64
  imageSourceToTextureId := []
  filenameHashToTextureId := []
  hTextures := [true, false]
  hResidentFlags := [1]
  lastRequestCount := 0
  lastRequestOverflow := false
  aborted := false
  destroying := false
  lastError := .Success

/-- C10 witness: the theorem applied at the concrete state. -/
theorem c10_resident_request_lastUsedFrame_witness :
    (getT c10StateW 0).resident = true ∧
    ((getT (processRequests (fun _ => none) c10StateW 1024 2 0 [0, 1]).2 0).lastUsedFrame
       = (getT c10StateW 0).lastUsedFrame ∧
     (∀ j, (getT (processRequests (fun _ => none) c10StateW 1024 2 0 [0, 1]).2 j).lastUsedFrame
         ≠ (getT c10StateW j).lastUsedFrame →
       (getT c10StateW j).resident = false ∧
       (getT (processRequests (fun _ => none) c10StateW 1024 2 0 [0, 1]).2 j).resident = true ∧
       (getT (processRequests (fun _ => none) c10StateW 1024 2 0 [0, 1]).2 j).lastUsedFrame
         = c10StateW.currentFrame)) :=
  ⟨by decide,
   c10_resident_request_lastUsedFrame (fun _ => none) c10StateW 1024 2 0 [0, 1] 0 (by decide)⟩

/-! ### Abort semantics (claim C6) -/

theorem getD_oob {α : Type} (l : List α) (i : Nat) (d : α) (h : l.length ≤ i) :
    l.getD i d = d := by
  simp [List.getD, List.getElem?_eq_none h]

theorem getT_destroy_other (s : EngineState) (i j : Nat) (h : i ≠ j) :
    getT (destroyTexture s i) j = getT s j := by
  rcases destroyTexture_characterization s i with hc | ⟨_, hc⟩
  · rw [hc]
  · rw [hc]
    unfold destroyUpdate getT
    exact getD_set_ne _ _ _ _ _ h

theorem getT_destroy_self_resident (s : EngineState) (i : Nat) :
    (getT (destroyTexture s i) i).resident = false := by
  unfold destroyTexture
  by_cases h : (getT s i).resident = false
  · rw [if_pos h]; exact h
  · rw [if_neg h]
    unfold destroyUpdate getT
    by_cases hlt : i < s.textures.length
    · rw [getD_set_self _ _ _ _ hlt]; rfl
    · exfalso
      apply h
      show (s.textures.getD i {}).resident = false
      rw [getD_oob _ _ _ (le_of_not_lt hlt)]

/-- After `destroyTexture i`, texture `i` holds no GPU resources (given that
it held none if it was already non-resident). -/
theorem destroy_self_released (s : EngineState) (i : Nat)
    (hinv : (getT s i).resident = false →
      (getT s i).texObj = false ∧ (getT s i).array = false ∧ (getT s i).mipmapArray = false) :
    (getT (destroyTexture s i) i).resident = false ∧
    (getT (destroyTexture s i) i).texObj = false ∧
    (getT (destroyTexture s i) i).array = false ∧
    (getT (destroyTexture s i) i).mipmapArray = false := by
  unfold destroyTexture
  by_cases h : (getT s i).resident = false
  · rw [if_pos h]
    exact ⟨h, hinv h⟩
  · rw [if_neg h]
    unfold destroyUpdate getT
    by_cases hlt : i < s.textures.length
    · rw [getD_set_self _ _ _ _ hlt]
      exact ⟨rfl, rfl, rfl, rfl⟩
    · exfalso
      apply h
      show (s.textures.getD i {}).resident = false
      rw [getD_oob _ _ _ (le_of_not_lt hlt)]

theorem destroyRange_succ (st : EngineState) (n : Nat) :
    destroyRange st (n + 1) = destroyTexture (destroyRange st n) n := by
  unfold destroyRange
  rw [List.range_succ, List.foldl_append]
  rfl

theorem destroyRange_scalar (st : EngineState) (n : Nat) :
    ScalarEq st (destroyRange st n) := by
  induction n with
  | zero => exact scalarEq_refl st
  | succ k ih =>
    rw [destroyRange_succ]
    exact scalarEq_trans ih (destroyTexture_scalar _ k)

theorem destroyRange_getT_ge (st : EngineState) (n : Nat) :
    ∀ i, n ≤ i → getT (destroyRange st n) i = getT st i := by
  induction n with
  | zero => intro i _; rfl
  | succ k ih =>
    intro i hi
    rw [destroyRange_succ, getT_destroy_other _ _ _ (by omega), ih i (by omega)]

theorem destroyRange_resident_false (st : EngineState) (n : Nat) :
    ∀ i, i < n → (getT (destroyRange st n) i).resident = false := by
  induction n with
  | zero => intro i hi; omega
  | succ k ih =>
    intro i hi
    rw [destroyRange_succ]
    by_cases hik : i = k
    · subst hik
      exact getT_destroy_self_resident _ i
    · rw [getT_destroy_other _ _ _ (by omega)]
      exact ih i (by omega)

theorem destroyRange_released (st : EngineState) (n : Nat)
    (hinv : ∀ i, (getT st i).resident = false →
      (getT st i).texObj = false ∧ (getT st i).array = false ∧ (getT st i).mipmapArray = false) :
    ∀ i, i < n →
      (getT (destroyRange st n) i).resident = false ∧
      (getT (destroyRange st n) i).texObj = false ∧
      (getT (destroyRange st n) i).array = false ∧
      (getT (destroyRange st n) i).mipmapArray = false := by
  induction n with
  | zero => intro i hi; omega
  | succ k ih =>
    intro i hi
    rw [destroyRange_succ]
    by_cases hik : i = k
    · subst hik
      apply destroy_self_released
      rw [destroyRange_getT_ge st _ i (le_refl i)]
      exact hinv i
    · rw [getT_destroy_other _ _ _ (by omega)]
      exact ih i (by omega)

theorem destroyRange_id (st : EngineState) (n : Nat)
    (h : ∀ i, i < n → (getT st i).resident = false) : destroyRange st n = st := by
  induction n with
  | zero => rfl
  | succ k ih =>
    rw [destroyRange_succ, ih (fun i hi => h i (by omega))]
    unfold destroyTexture
    rw [if_pos (h k (by omega))]

/-- Replacing the `aborted` field by `true` is the identity once it is set. -/
theorem set_aborted_id (t : EngineState) (h : t.aborted = true) :
    { t with aborted := true } = t := by
  obtain ⟨o, tx, n, c, tm, m1, m2, ht, hr, lrc, lro, ab, de, le⟩ := t
  subst h
  rfl

theorem abort_isAborted (s : EngineState) : (abort s).aborted = true :=
  (destroyRange_scalar { s with aborted := true } s.nextTextureId).2.2.2.1

theorem createTextureFile_aborted (fs : FileSys) (s : EngineState)
    (filename : String) (desc : TextureDesc) :
    (createTextureFile fs s filename desc).2.aborted = s.aborted := by
  unfold createTextureFile
  dsimp only
  split
  · rfl
  · split
    · rfl
    · rfl

theorem createTextureSource_aborted (s : EngineState) (src : Option SourceObj)
    (desc : TextureDesc) :
    (createTextureSource s src desc).2.aborted = s.aborted := by
  unfold createTextureSource
  split
  · rfl
  · dsimp only
    split
    · rfl
    · split
      · rfl
      · split
        · rfl
        · rfl

theorem createTextureFromMemory_aborted (s : EngineState) (dataOk : Bool)
    (w h c : Int) (desc : TextureDesc) :
    (createTextureFromMemory s dataOk w h c desc).2.aborted = s.aborted := by
  unfold createTextureFromMemory
  split
  · rfl
  · split
    · rfl
    · rfl

/-- Every public operation leaves a set `aborted` flag set (nothing clears it). -/
theorem applyOp_aborted (op : Op) (t : EngineState) (h : t.aborted = true) :
    (applyOp op t).aborted = true := by
  cases op with
  | createFile fs filename desc =>
      show (createTextureFile fs t filename desc).2.aborted = true
      rw [createTextureFile_aborted]; exact h
  | createSource src desc =>
      show (createTextureSource t src desc).2.aborted = true
      rw [createTextureSource_aborted]; exact h
  | createMemory dataOk w hh c desc =>
      show (createTextureFromMemory t dataOk w hh c desc).2.aborted = true
      rw [createTextureFromMemory_aborted]; exact h
  | processReq fs ctxMax devC devO ring =>
      show (processRequests fs t ctxMax devC devO ring).2.aborted = true
      unfold processRequests
      rw [if_pos h]
      exact h
  | processReqAsync fs ctxMax devC devO ring =>
      show (processRequestsAsync fs t ctxMax devC devO ring).2.2.aborted = true
      unfold processRequestsAsync
      by_cases hd : t.destroying = true
      · rw [if_pos hd]; exact h
      · rw [if_neg hd, if_pos h]; exact h
  | unload texId =>
      exact ((destroyTexture_scalar t texId).2.2.2.1).trans h
  | unloadAllOp =>
      exact ((destroyRange_scalar t t.nextTextureId).2.2.2.1).trans h
  | abortOp => exact abort_isAborted t
  | prepare => exact h
  | updatePriority texId p =>
      show (updateEvictionPriority t texId p).aborted = true
      unfold updateEvictionPriority
      split
      · exact h
      · exact h
  | setMaxMemory bytes => exact h
  | setEviction enable => exact h

/-- C6: `abort` is idempotent and the engine is permanently aborted
afterwards: the flag stays set across every subsequent operation,
`process_requests` short-circuits to `(0, unchanged)`,
`process_requests_async` returns an empty ticket, no `loadTexture` call does
anything, and every texture's GPU resources (texture object, flat array, mip
array) have been released.  Hypotheses: in the starting state non-resident
textures hold no GPU resources and no texture at or beyond
`nextTextureId_` is resident — both invariants of reachable states. -/
theorem c6_abort_semantics (s : EngineState)
    (hres0 : ∀ i, (getT s i).resident = false →
      (getT s i).texObj = false ∧ (getT s i).array = false ∧ (getT s i).mipmapArray = false)
    (hhigh : ∀ i, s.nextTextureId ≤ i → (getT s i).resident = false) :
    abort (abort s) = abort s ∧
    isAborted (abort s) = true ∧
    (∀ fs ctxMaxRequests devCount devOverflow ring,
      processRequests fs (abort s) ctxMaxRequests devCount devOverflow ring = (0, abort s)) ∧
    (∀ fs ctxMaxRequests devCount devOverflow ring,
      (processRequestsAsync fs (abort s) ctxMaxRequests devCount devOverflow ring).1 = false) ∧
    (∀ fs texId, loadTexture fs (abort s) texId = (false, abort s)) ∧
    (∀ i, (getT (abort s) i).resident = false ∧ (getT (abort s) i).texObj = false ∧
          (getT (abort s) i).array = false ∧ (getT (abort s) i).mipmapArray = false) ∧
    (∀ ops, isAborted (runOps ops (abort s)) = true) := by
  have hnext : (abort s).nextTextureId = s.nextTextureId :=
    (destroyRange_scalar _ _).2.1
  have hreleased : ∀ i, (getT (abort s) i).resident = false ∧
      (getT (abort s) i).texObj = false ∧ (getT (abort s) i).array = false ∧
      (getT (abort s) i).mipmapArray = false := by
    intro i
    by_cases hi : i < s.nextTextureId
    · exact destroyRange_released { s with aborted := true } s.nextTextureId hres0 i hi
    · have hgt := destroyRange_getT_ge { s with aborted := true } s.nextTextureId i
        (le_of_not_lt hi)
      unfold abort
      rw [hgt]
      have hr : (getT s i).resident = false := hhigh i (le_of_not_lt hi)
      exact ⟨hr, hres0 i hr⟩
  refine ⟨?_, abort_isAborted s, ?_, ?_, ?_, hreleased, ?_⟩
  · show destroyRange { abort s with aborted := true } (abort s).nextTextureId = abort s
    rw [set_aborted_id (abort s) (abort_isAborted s), hnext]
    apply destroyRange_id
    intro i hi
    exact (hreleased i).1
  · intro fs ctxMaxRequests devCount devOverflow ring
    unfold processRequests
    rw [if_pos (abort_isAborted s)]
  · intro fs ctxMaxRequests devCount devOverflow ring
    unfold processRequestsAsync
    by_cases hd : (abort s).destroying = true
    · rw [if_pos hd]
    · rw [if_neg hd, if_pos (abort_isAborted s)]
  · intro fs texId
    unfold loadTexture
    rw [if_pos (abort_isAborted s)]
  · intro ops
    show (runOps ops (abort s)).aborted = true
    have hgen : ∀ (l : List Op) (t : EngineState), t.aborted = true →
        (runOps l t).aborted = true := by
      intro l
      induction l with
      | nil => intro t ht; exact ht
      | cons op rest ih =>
        intro t ht
        exact ih (applyOp op t) (applyOp_aborted op t ht)
    exact hgen ops (abort s) (abort_isAborted s)

/-- C6 witness: the theorem applied to a state with one resident texture
owning GPU resources. -/
theorem c6_abort_semantics_witness :
    (∀ i, (getT c9State i).resident = false →
      (getT c9State i).texObj = false ∧ (getT c9State i).array = false ∧
      (getT c9State i).mipmapArray = false) ∧
    (∀ i, c9State.nextTextureId ≤ i → (getT c9State i).resident = false) ∧
    (abort (abort c9State) = abort c9State ∧
     isAborted (abort c9State) = true ∧
     (∀ fs ctxMaxRequests devCount devOverflow ring,
       processRequests fs (abort c9State) ctxMaxRequests devCount devOverflow ring
         = (0, abort c9State)) ∧
     (∀ fs ctxMaxRequests devCount devOverflow ring,
       (processRequestsAsync fs (abort c9State) ctxMaxRequests devCount devOverflow ring).1
         = false) ∧
     (∀ fs texId, loadTexture fs (abort c9State) texId = (false, abort c9State)) ∧
     (∀ i, (getT (abort c9State) i).resident = false ∧
           (getT (abort c9State) i).texObj = false ∧
           (getT (abort c9State) i).array = false ∧
           (getT (abort c9State) i).mipmapArray = false) ∧
     (∀ ops, isAborted (runOps ops (abort c9State)) = true)) := by
  have hoob : ∀ i, 1 ≤ i → getT c9State i = ({} : TextureMetadata) := by
    intro i hi
    show c9State.textures.getD i {} = {}
    apply getD_oob
    show 1 ≤ i
    exact hi
  have h1 : ∀ i, (getT c9State i).resident = false →
      (getT c9State i).texObj = false ∧ (getT c9State i).array = false ∧
      (getT c9State i).mipmapArray = false := by
    intro i hr
    by_cases hi : i = 0
    · subst hi
      exact absurd hr (by decide)
    · rw [hoob i (by omega)]
      exact ⟨rfl, rfl, rfl⟩
  have h2 : ∀ i, c9State.nextTextureId ≤ i → (getT c9State i).resident = false := by
    intro i hi
    rw [hoob i hi]
  exact ⟨h1, h2, c6_abort_semantics c9State h1 h2⟩

/-! ### Memory accounting invariant (claim C4) -/

/-- A texture's contribution to the "sum of memory over resident textures". -/
def memContrib (t : TextureMetadata) : Nat :=
  if t.resident = true then t.memoryUsage else 0

/-- `Σ memory_usage(i)` over the currently resident textures. -/
def residentMemSum (s : EngineState) : Nat :=
  (s.textures.map memContrib).sum

/-- The engine's memory-accounting invariant: the running `size_t` total is
the resident sum (reduced mod `2^64`, the width of the counter), together
with the structural facts that make it inductive: `nextTextureId_` stays
within the texture vector, the vector covers `maxTextures`, and ids not yet
allocated are never resident. -/
def MemInv (s : EngineState) : Prop :=
  s.totalMemoryUsage = residentMemSum s % M64 ∧
  s.nextTextureId ≤ s.textures.length ∧
  s.options.maxTextures ≤ s.textures.length ∧
  ∀ i, s.nextTextureId ≤ i → (getT s i).resident = false

theorem add64_mod (S m : Nat) : add64 (S % M64) m = (S + m) % M64 := by
  unfold add64 M64
  omega

theorem sub64_mod (S m : Nat) (h : m ≤ S) : sub64 (S % M64) m = (S - m) % M64 := by
  unfold sub64 M64
  omega

theorem memContrib_of_not_resident {t : TextureMetadata} (h : t.resident = false) :
    memContrib t = 0 := by
  simp [memContrib, h]

theorem memContrib_of_resident {t : TextureMetadata} (h : t.resident = true) :
    memContrib t = t.memoryUsage := by
  simp [memContrib, h]

/-- `sum_map_set` phrased through `getT`. -/
theorem sum_map_set_getT (s : EngineState) (i : Nat) (x : TextureMetadata)
    (h : i < s.textures.length) :
    ((s.textures.set i x).map memContrib).sum + memContrib (getT s i)
      = (s.textures.map memContrib).sum + memContrib x :=
  sum_map_set memContrib s.textures i x {} h

/-- Replacing a texture entry by one with the same contribution and residency
preserves the invariant (covers `failUpdate` and `updateEvictionPriority`). -/
theorem MemInv_set_same (s : EngineState) (i : Nat) (x : TextureMetadata)
    (hcx : memContrib x = memContrib (getT s i))
    (hrx : x.resident = (getT s i).resident)
    (h : MemInv s) : MemInv { s with textures := s.textures.set i x } := by
  obtain ⟨h1, h2, h3, h4⟩ := h
  by_cases hlt : i < s.textures.length
  · have hsum := sum_map_set_getT s i x hlt
    rw [hcx] at hsum
    refine ⟨?_, ?_, ?_, ?_⟩
    · show s.totalMemoryUsage = ((s.textures.set i x).map memContrib).sum % M64
      have : ((s.textures.set i x).map memContrib).sum = residentMemSum s := by
        unfold residentMemSum
        omega
      rw [this]
      exact h1
    · show s.nextTextureId ≤ (s.textures.set i x).length
      rw [List.length_set]; exact h2
    · show s.options.maxTextures ≤ (s.textures.set i x).length
      rw [List.length_set]; exact h3
    · intro j hj
      show ((s.textures.set i x).getD j {}).resident = false
      by_cases hij : i = j
      · subst hij
        rw [getD_set_self _ _ _ _ hlt, hrx]
        exact h4 i hj
      · rw [getD_set_ne _ _ _ _ _ hij]
        exact h4 j hj
  · rw [List.set_eq_of_length_le (le_of_not_lt hlt)]
    exact ⟨h1, h2, h3, h4⟩

theorem destroyTexture_MemInv (s : EngineState) (i : Nat) (h : MemInv s) :
    MemInv (destroyTexture s i) := by
  rcases destroyTexture_characterization s i with hc | ⟨hres, hc⟩
  · rw [hc]; exact h
  · rw [hc]
    obtain ⟨h1, h2, h3, h4⟩ := h
    have hlt : i < s.textures.length := by
      by_contra hge
      have hd : getT s i = ({} : TextureMetadata) := getD_oob _ _ _ (le_of_not_lt hge)
      rw [hd] at hres
      exact absurd hres (by decide)
    have hsum := sum_map_set_getT s i (clearedOf (getT s i)) hlt
    have hold : memContrib (getT s i) = (getT s i).memoryUsage :=
      memContrib_of_resident hres
    have hnew : memContrib (clearedOf (getT s i)) = 0 := rfl
    rw [hold, hnew] at hsum
    have hle : (getT s i).memoryUsage ≤ residentMemSum s := by
      unfold residentMemSum
      omega
    refine ⟨?_, ?_, ?_, ?_⟩
    · show sub64 s.totalMemoryUsage (getT s i).memoryUsage
        = ((s.textures.set i (clearedOf (getT s i))).map memContrib).sum % M64
      rw [h1, sub64_mod _ _ hle]
      congr 1
      unfold residentMemSum at *
      omega
    · show s.nextTextureId ≤ (s.textures.set i (clearedOf (getT s i))).length
      rw [List.length_set]; exact h2
    · show s.options.maxTextures ≤ (s.textures.set i (clearedOf (getT s i))).length
      rw [List.length_set]; exact h3
    · intro j hj
      show ((s.textures.set i (clearedOf (getT s i))).getD j {}).resident = false
      by_cases hij : i = j
      · subst hij
        rw [getD_set_self _ _ _ _ hlt]
        rfl
      · rw [getD_set_ne _ _ _ _ _ hij]
        exact h4 j hj

theorem publishUpdate_MemInv (st : EngineState) (i : Nat) (info' : TextureMetadata)
    (hres : (getT st i).resident = false) (hri : info'.resident = true)
    (hlow : i < st.nextTextureId) (h : MemInv st) :
    MemInv (publishUpdate st i info') := by
  obtain ⟨h1, h2, h3, h4⟩ := h
  have hlt : i < st.textures.length := lt_of_lt_of_le hlow h2
  have hsum := sum_map_set_getT st i info' hlt
  have hold : memContrib (getT st i) = 0 := memContrib_of_not_resident hres
  have hnew : memContrib info' = info'.memoryUsage := memContrib_of_resident hri
  rw [hold, hnew] at hsum
  refine ⟨?_, ?_, ?_, ?_⟩
  · show add64 st.totalMemoryUsage info'.memoryUsage
      = ((st.textures.set i info').map memContrib).sum % M64
    rw [h1, add64_mod]
    congr 1
    unfold residentMemSum at *
    omega
  · show st.nextTextureId ≤ (st.textures.set i info').length
    rw [List.length_set]; exact h2
  · show st.options.maxTextures ≤ (st.textures.set i info').length
    rw [List.length_set]; exact h3
  · intro j hj
    have hj' : st.nextTextureId ≤ j := hj
    show ((st.textures.set i info').getD j {}).resident = false
    by_cases hij : i = j
    · subst hij; omega
    · rw [getD_set_ne _ _ _ _ _ hij]
      exact h4 j hj'

theorem loadTexture_MemInv (fs : FileSys) (st : EngineState) (i : Nat)
    (hlow : i < st.nextTextureId) (h : MemInv st) :
    MemInv (loadTexture fs st i).2 := by
  rcases loadTexture_characterization fs st i with hc | ⟨e, _, hc⟩ | ⟨hr, _, info', hri, _, _, hc⟩
  · rw [hc]; exact h
  · rw [hc]
    exact MemInv_set_same st i _ rfl rfl h
  · rw [hc]
    exact publishUpdate_MemInv st i info' hr hri hlow h

theorem evictWalk_MemInv (target : Nat) :
    ∀ (l : List (Nat × Nat × Nat)) (st : EngineState),
      MemInv st → MemInv (evictWalk target l st).1 := by
  intro l
  induction l with
  | nil => intro st h; exact h
  | cons e rest ih =>
    intro st h
    rw [evictWalk]
    by_cases hle : st.totalMemoryUsage ≤ target
    · rw [if_pos hle]; exact h
    · rw [if_neg hle]
      exact ih _ (destroyTexture_MemInv st e.2.2 h)

theorem evictIfNeeded_MemInv (s : EngineState) (required : Nat) (h : MemInv s) :
    MemInv (evictIfNeeded s required) := by
  unfold evictIfNeeded evictIfNeededFull
  by_cases h1 : s.options.maxTextureMemory = 0
  · rw [if_pos h1]; exact h
  · rw [if_neg h1]
    by_cases h2 : add64 s.totalMemoryUsage required ≤ s.options.maxTextureMemory
    · rw [if_pos h2]; exact h
    · rw [if_neg h2]
      exact evictWalk_MemInv _ _ s h

theorem processRequestsHost_MemInv (fs : FileSys) (s : EngineState)
    (requestCount : Nat) (requests : List Nat) (h : MemInv s) :
    MemInv (processRequestsHost fs s requestCount requests).2 := by
  unfold processRequestsHost
  refine (foldl_invariant _ (fun (p : Nat × EngineState) =>
      MemInv p.2 ∧ p.2.nextTextureId = s.nextTextureId) _ _ ?_ ?_).1
  · constructor
    · dsimp only
      split
      · exact evictIfNeeded_MemInv s _ h
      · exact h
    · dsimp only
      split
      · exact (evictIfNeeded_scalar s _).2.1
      · rfl
  · intro b a ha hb
    constructor
    · apply loadTexture_MemInv fs b.2 a _ hb.1
      rw [hb.2]
      exact (collectRequests_mem s requestCount requests a ha).1
    · rw [(loadTexture_scalar fs b.2 a).2.1]
      exact hb.2

theorem processRequests_MemInv (fs : FileSys) (s : EngineState)
    (ctxMaxRequests devCount devOverflow : Nat) (ring : List Nat) (h : MemInv s) :
    MemInv (processRequests fs s ctxMaxRequests devCount devOverflow ring).2 := by
  unfold processRequests
  by_cases hab : s.aborted = true
  · rw [if_pos hab]; exact h
  · rw [if_neg hab]
    by_cases h0 : devCount = 0
    · rw [if_pos h0]; exact h
    · rw [if_neg h0]
      exact processRequestsHost_MemInv fs _ _ _ h

theorem processRequestsAsync_MemInv (fs : FileSys) (s : EngineState)
    (ctxMaxRequests devCount devOverflow : Nat) (ring : List Nat) (h : MemInv s) :
    MemInv (processRequestsAsync fs s ctxMaxRequests devCount devOverflow ring).2.2 := by
  unfold processRequestsAsync
  by_cases hd : s.destroying = true
  · rw [if_pos hd]; exact h
  · rw [if_neg hd]
    by_cases hab : s.aborted = true
    · rw [if_pos hab]; exact h
    · rw [if_neg hab]
      by_cases h0 : devCount = 0
      · rw [if_pos h0]; exact h
      · rw [if_neg h0]
        exact processRequestsHost_MemInv fs _ _ _ h

theorem destroyRange_MemInv (st : EngineState) (n : Nat) (h : MemInv st) :
    MemInv (destroyRange st n) := by
  induction n with
  | zero => exact h
  | succ k ih =>
    rw [destroyRange_succ]
    exact destroyTexture_MemInv _ k ih

/-- The allocation leaf shared by the three creation paths: install a fresh
non-resident metadata record at `nextTextureId_` and bump the id counter. -/
theorem MemInv_alloc (s : EngineState) (meta : TextureMetadata)
    (hcap : ¬ s.options.maxTextures ≤ s.nextTextureId)
    (hmr : meta.resident = false) (h : MemInv s) (e : LoaderError)
    (m1 : List (Nat × Nat)) (m2 : List (Nat × Nat)) :
    MemInv { s with
      nextTextureId := s.nextTextureId + 1,
      imageSourceToTextureId := m1,
      filenameHashToTextureId := m2,
      textures := s.textures.set s.nextTextureId meta,
      lastError := e } := by
  obtain ⟨h1, h2, h3, h4⟩ := h
  have hlt : s.nextTextureId < s.textures.length := lt_of_lt_of_le (not_le.mp hcap) h3
  have hsum := sum_map_set_getT s s.nextTextureId meta hlt
  have hold : memContrib (getT s s.nextTextureId) = 0 :=
    memContrib_of_not_resident (h4 s.nextTextureId (le_refl _))
  have hnew : memContrib meta = 0 := memContrib_of_not_resident hmr
  rw [hold, hnew] at hsum
  refine ⟨?_, ?_, ?_, ?_⟩
  · show s.totalMemoryUsage = ((s.textures.set s.nextTextureId meta).map memContrib).sum % M64
    have : ((s.textures.set s.nextTextureId meta).map memContrib).sum = residentMemSum s := by
      unfold residentMemSum
      omega
    rw [this]
    exact h1
  · show s.nextTextureId + 1 ≤ (s.textures.set s.nextTextureId meta).length
    rw [List.length_set]; omega
  · show s.options.maxTextures ≤ (s.textures.set s.nextTextureId meta).length
    rw [List.length_set]; exact h3
  · intro j hj
    have hj' : s.nextTextureId + 1 ≤ j := hj
    show ((s.textures.set s.nextTextureId meta).getD j {}).resident = false
    have hne : s.nextTextureId ≠ j := by omega
    rw [getD_set_ne _ _ _ _ _ hne]
    exact h4 j (by omega)

theorem createTextureFile_MemInv (fs : FileSys) (s : EngineState)
    (filename : String) (desc : TextureDesc) (h : MemInv s) :
    MemInv (createTextureFile fs s filename desc).2 := by
  unfold createTextureFile
  dsimp only
  split
  · exact h
  · split
    · next hcap => exact ⟨h.1, h.2.1, h.2.2.1, h.2.2.2⟩
    · next hcap =>
      cases hf : fs filename with
      | some whc =>
        obtain ⟨w0, h0, c0⟩ := whc
        exact MemInv_alloc s _ hcap rfl h _ _ _
      | none =>
        exact MemInv_alloc s _ hcap rfl h _ _ _

theorem createTextureSource_MemInv (s : EngineState) (src : Option SourceObj)
    (desc : TextureDesc) (h : MemInv s) :
    MemInv (createTextureSource s src desc).2 := by
  unfold createTextureSource
  split
  · exact ⟨h.1, h.2.1, h.2.2.1, h.2.2.2⟩
  · dsimp only
    split
    · exact h
    · split
      · exact ⟨h.1, h.2.1, h.2.2.1, h.2.2.2⟩
      · split
        · next hcap => exact ⟨h.1, h.2.1, h.2.2.1, h.2.2.2⟩
        · next src' hcap =>
          split
          · exact MemInv_alloc s _ hcap rfl h _ _ _
          · exact MemInv_alloc s _ hcap rfl h _ _ _

theorem createTextureFromMemory_MemInv (s : EngineState) (dataOk : Bool)
    (w hh c : Int) (desc : TextureDesc) (h : MemInv s) :
    MemInv (createTextureFromMemory s dataOk w hh c desc).2 := by
  unfold createTextureFromMemory
  split
  · exact ⟨h.1, h.2.1, h.2.2.1, h.2.2.2⟩
  · split
    · next hcap => exact ⟨h.1, h.2.1, h.2.2.1, h.2.2.2⟩
    · next hcap => exact MemInv_alloc s _ hcap rfl h _ _ _

theorem updateEvictionPriority_MemInv (s : EngineState) (texId : Nat)
    (p : EvictionPriority) (h : MemInv s) :
    MemInv (updateEvictionPriority s texId p) := by
  unfold updateEvictionPriority
  split
  · exact MemInv_set_same s texId _ rfl rfl h
  · exact h

theorem applyOp_MemInv (op : Op) (s : EngineState) (h : MemInv s) :
    MemInv (applyOp op s) := by
  cases op with
  | createFile fs filename desc => exact createTextureFile_MemInv fs s filename desc h
  | createSource src desc => exact createTextureSource_MemInv s src desc h
  | createMemory dataOk w hh c desc => exact createTextureFromMemory_MemInv s dataOk w hh c desc h
  | processReq fs ctxMax devC devO ring => exact processRequests_MemInv fs s ctxMax devC devO ring h
  | processReqAsync fs ctxMax devC devO ring =>
      exact processRequestsAsync_MemInv fs s ctxMax devC devO ring h
  | unload texId => exact destroyTexture_MemInv s texId h
  | unloadAllOp => exact destroyRange_MemInv s s.nextTextureId h
  | abortOp =>
      exact destroyRange_MemInv { s with aborted := true } s.nextTextureId
        ⟨h.1, h.2.1, h.2.2.1, h.2.2.2⟩
  | prepare => exact ⟨h.1, h.2.1, h.2.2.1, h.2.2.2⟩
  | updatePriority texId p => exact updateEvictionPriority_MemInv s texId p h
  | setMaxMemory bytes => exact ⟨h.1, h.2.1, h.2.2.1, h.2.2.2⟩
  | setEviction enable => exact ⟨h.1, h.2.1, h.2.2.1, h.2.2.2⟩

theorem initState_MemInv (opts : LoaderOptions) : MemInv (initState opts) := by
  refine ⟨?_, ?_, ?_, ?_⟩
  · show 0 = residentMemSum (initState opts) % M64
    have : residentMemSum (initState opts) = 0 := by
      unfold residentMemSum initState
      dsimp only
      rw [List.map_replicate]
      rw [List.sum_replicate]
      rfl
    rw [this]
    rfl
  · show 0 ≤ (List.replicate opts.maxTextures ({} : TextureMetadata)).length
    omega
  · show opts.maxTextures ≤ (List.replicate opts.maxTextures ({} : TextureMetadata)).length
    rw [List.length_replicate]
  · intro i _
    show ((List.replicate opts.maxTextures ({} : TextureMetadata)).getD i {}).resident = false
    have hval : (List.replicate opts.maxTextures ({} : TextureMetadata)).getD i {}
        = ({} : TextureMetadata) := by
      by_cases hi : i < opts.maxTextures
      · simp [List.getD, List.getElem?_replicate, hi]
      · exact getD_oob _ _ _ (by simpa using le_of_not_lt hi)
    rw [hval]

theorem runOps_MemInv (ops : List Op) (s : EngineState) (h : MemInv s) :
    MemInv (runOps ops s) := by
  induction ops generalizing s with
  | nil => exact h
  | cons op rest ih =>
    exact ih (applyOp op s) (applyOp_MemInv op s h)

/-- C4: after every sequence of public operations from a fresh engine, the
running total `totalMemoryUsage_` equals the sum of `memoryUsage` over
exactly the resident textures, reduced modulo `2^64` (the width of the
`size_t` counter); whenever that sum is below `2^64` — every physically
realizable state — the equality is exact. -/
theorem c4_total_memory_invariant (opts : LoaderOptions) (ops : List Op) :
    getTotalTextureMemory (runOps ops (initState opts)) =
      residentMemSum (runOps ops (initState opts)) % M64 ∧
    (residentMemSum (runOps ops (initState opts)) < M64 →
      getTotalTextureMemory (runOps ops (initState opts)) =
        residentMemSum (runOps ops (initState opts))) := by
  have h := runOps_MemInv ops (initState opts) (initState_MemInv opts)
  exact ⟨h.1, fun hlt => h.1.trans (Nat.mod_eq_of_lt hlt)⟩

/-- C4 witness: a concrete trace — create two textures, load both via a
request batch, unload one — on which the resident sum is small and the
equality is exact. -/
theorem c4_total_memory_invariant_witness :
    residentMemSum (runOps
      [.createMemory true 4 4 4 {}, .createMemory true 8 8 4 {},
       .processReq (fun _ => none) 1024 2 0 [0, 1], .unload 0]
      (initState { maxTextures := 4, maxTextureMemory := 0 })) < M64 ∧
    getTotalTextureMemory (runOps
      [.createMemory true 4 4 4 {}, .createMemory true 8 8 4 {},
       .processReq (fun _ => none) 1024 2 0 [0, 1], .unload 0]
      (initState { maxTextures := 4, maxTextureMemory := 0 })) =
    residentMemSum (runOps
      [.createMemory true 4 4 4 {}, .createMemory true 8 8 4 {},
       .processReq (fun _ => none) 1024 2 0 [0, 1], .unload 0]
      (initState { maxTextures := 4, maxTextureMemory := 0 })) :=
  ⟨by decide,
   (c4_total_memory_invariant { maxTextures := 4, maxTextureMemory := 0 }
     [.createMemory true 4 4 4 {}, .createMemory true 8 8 4 {},
      .processReq (fun _ => none) 1024 2 0 [0, 1], .unload 0]).2 (by decide)⟩

/-! ### Creation failure behaviour (claim C8) -/

/-- The three outcomes of `createTexture(filename, desc)`: deduplication hit
(state unchanged), capacity failure, or allocation — where the fresh
metadata is non-resident and records `FileNotFound` exactly when the probe
fails, while the handle itself is valid with `error = Success`. -/
theorem createTextureFile_characterization (fs : FileSys) (s : EngineState)
    (filename : String) (desc : TextureDesc) :
    (∃ existingId, createTextureFile fs s filename desc =
      ({ id := existingId, valid := true, width := (getT s existingId).width,
         height := (getT s existingId).height, channels := (getT s existingId).channels,
         error := .Success }, s)) ∨
    (s.options.maxTextures ≤ s.nextTextureId ∧
      createTextureFile fs s filename desc =
      ({ id := 0, valid := false, error := .MaxTexturesExceeded },
       { s with lastError := .MaxTexturesExceeded })) ∨
    (¬ s.options.maxTextures ≤ s.nextTextureId ∧
      ∃ meta : TextureMetadata,
        meta.resident = false ∧
        meta.lastError = (if (fs filename).isSome then LoaderError.Success
                          else LoaderError.FileNotFound) ∧
        createTextureFile fs s filename desc =
        ({ id := s.nextTextureId, valid := true, width := meta.width,
           height := meta.height, channels := meta.channels, error := .Success },
         { s with
           nextTextureId := s.nextTextureId + 1,
           filenameHashToTextureId :=
             insertL s.filenameHashToTextureId (strHash filename) s.nextTextureId,
           textures := s.textures.set s.nextTextureId meta,
           lastError := .Success })) := by
  unfold createTextureFile
  dsimp only
  split
  · next existingId _ => exact Or.inl ⟨existingId, rfl⟩
  · by_cases hcap : s.options.maxTextures ≤ s.nextTextureId
    · rw [if_pos hcap]
      exact Or.inr (Or.inl ⟨hcap, rfl⟩)
    · rw [if_neg hcap]
      refine Or.inr (Or.inr ⟨hcap, ?_⟩)
      cases hf : fs filename with
      | some whc =>
        obtain ⟨w0, h0, c0⟩ := whc
        exact ⟨_, rfl, rfl, rfl⟩
      | none =>
        exact ⟨_, rfl, rfl, rfl⟩

/-- C8 (amended): every creation that fails — i.e. returns an invalid handle:
the capacity limit is reached, the `ImageSource` is null, or the
from-memory parameters are invalid — populates the handle's `error` field and
sets the engine's `last_error` to the same kind.  A path whose file cannot be
probed is NOT such a failure: the allocation still happens, the handle comes
back valid with `error = Success`, the engine's `last_error` is `Success` and
only the per-texture error records `FileNotFound`. -/
theorem c8_creation_failures (fs : FileSys) (s : EngineState) (filename : String)
    (desc : TextureDesc) (src : Option SourceObj) (dataOk : Bool) (w hh c : Int)
    (hlen : s.options.maxTextures ≤ s.textures.length) :
    ((createTextureFile fs s filename desc).1.valid = false →
      (createTextureFile fs s filename desc).1.error ≠ .Success ∧
      (createTextureFile fs s filename desc).2.lastError
        = (createTextureFile fs s filename desc).1.error) ∧
    ((createTextureSource s src desc).1.valid = false →
      (createTextureSource s src desc).1.error ≠ .Success ∧
      (createTextureSource s src desc).2.lastError
        = (createTextureSource s src desc).1.error) ∧
    ((createTextureFromMemory s dataOk w hh c desc).1.valid = false →
      (createTextureFromMemory s dataOk w hh c desc).1.error ≠ .Success ∧
      (createTextureFromMemory s dataOk w hh c desc).2.lastError
        = (createTextureFromMemory s dataOk w hh c desc).1.error) ∧
    (fs filename = none →
      (createTextureFile fs s filename desc).2.nextTextureId = s.nextTextureId + 1 →
      (createTextureFile fs s filename desc).1.valid = true ∧
      (createTextureFile fs s filename desc).1.error = .Success ∧
      (createTextureFile fs s filename desc).2.lastError = .Success ∧
      (getT (createTextureFile fs s filename desc).2
        (createTextureFile fs s filename desc).1.id).lastError = .FileNotFound) := by
  refine ⟨?_, ?_, ?_, ?_⟩
  · unfold createTextureFile
    dsimp only
    split
    · intro hv; cases hv
    · split
      · intro _; exact ⟨(fun hx => nomatch hx), rfl⟩
      · intro hv; cases hv
  · unfold createTextureSource
    split
    · intro _; exact ⟨(fun hx => nomatch hx), rfl⟩
    · dsimp only
      split
      · intro hv; cases hv
      · split
        · intro hv; cases hv
        · split
          · intro _; exact ⟨(fun hx => nomatch hx), rfl⟩
          · split
            · intro hv; cases hv
            · intro hv; cases hv
  · unfold createTextureFromMemory
    split
    · intro _; exact ⟨(fun hx => nomatch hx), rfl⟩
    · split
      · intro _; exact ⟨(fun hx => nomatch hx), rfl⟩
      · intro hv; cases hv
  · intro hf hinc
    rcases createTextureFile_characterization fs s filename desc with
      ⟨existingId, hc⟩ | ⟨hcap, hc⟩ | ⟨hcap, meta, hmr, hme, hc⟩
    · rw [hc] at hinc
      have hinc' : s.nextTextureId = s.nextTextureId + 1 := hinc
      omega
    · rw [hc] at hinc
      have hinc' : s.nextTextureId = s.nextTextureId + 1 := hinc
      omega
    · rw [hc]
      refine ⟨rfl, rfl, rfl, ?_⟩
      show ((s.textures.set s.nextTextureId meta).getD s.nextTextureId {}).lastError
        = LoaderError.FileNotFound
      rw [getD_set_self _ _ _ _ (lt_of_lt_of_le (not_le.mp hcap) hlen)]
      rw [hme, hf]
      rfl

/-- C8 counterexample: creating a texture from a path whose file cannot be
probed (the claim includes this among the failures) returns a VALID handle
with `error = Success` and `last_error = Success`; only the per-texture error
is `FileNotFound`.  So such a creation does not surface `valid = false`. -/
theorem c8_counterexample :
    ((createTextureFile (fun _ => none) (initState { maxTextures := 4 })
        "missing.png" {}).1.valid = true) ∧
    ((createTextureFile (fun _ => none) (initState { maxTextures := 4 })
        "missing.png" {}).1.error = .Success) ∧
    ((createTextureFile (fun _ => none) (initState { maxTextures := 4 })
        "missing.png" {}).2.lastError = .Success) ∧
    ((getT (createTextureFile (fun _ => none) (initState { maxTextures := 4 })
        "missing.png" {}).2 0).lastError = .FileNotFound) := by
  decide

/-- C8 witness: at a full engine (`maxTextures = 0`) every creation path
fails with `MaxTexturesExceeded` surfaced in both the handle and
`last_error`, and the probe-failure path of a non-full engine allocates. -/
theorem c8_creation_failures_witness :
    ((initState { maxTextures := 4 }).options.maxTextures
      ≤ (initState { maxTextures := 4 }).textures.length) ∧
    (((createTextureFile (fun _ => none) (initState { maxTextures := 4 }) "a.png" {}).1.valid
        = false →
      (createTextureFile (fun _ => none) (initState { maxTextures := 4 }) "a.png" {}).1.error
        ≠ .Success ∧
      (createTextureFile (fun _ => none) (initState { maxTextures := 4 }) "a.png" {}).2.lastError
        = (createTextureFile (fun _ => none) (initState { maxTextures := 4 }) "a.png" {}).1.error) ∧
     ((createTextureSource (initState { maxTextures := 4 }) none {}).1.valid = false →
      (createTextureSource (initState { maxTextures := 4 }) none {}).1.error ≠ .Success ∧
      (createTextureSource (initState { maxTextures := 4 }) none {}).2.lastError
        = (createTextureSource (initState { maxTextures := 4 }) none {}).1.error) ∧
     ((createTextureFromMemory (initState { maxTextures := 4 }) false 4 4 4 {}).1.valid = false →
      (createTextureFromMemory (initState { maxTextures := 4 }) false 4 4 4 {}).1.error
        ≠ .Success ∧
      (createTextureFromMemory (initState { maxTextures := 4 }) false 4 4 4 {}).2.lastError
        = (createTextureFromMemory (initState { maxTextures := 4 }) false 4 4 4 {}).1.error) ∧
     ((fun _ => (none : Option (Nat × Nat × Nat))) "a.png" = none →
      (createTextureFile (fun _ => none) (initState { maxTextures := 4 }) "a.png" {}).2.nextTextureId
        = (initState { maxTextures := 4 }).nextTextureId + 1 →
      (createTextureFile (fun _ => none) (initState { maxTextures := 4 }) "a.png" {}).1.valid
        = true ∧
      (createTextureFile (fun _ => none) (initState { maxTextures := 4 }) "a.png" {}).1.error
        = .Success ∧
      (createTextureFile (fun _ => none) (initState { maxTextures := 4 }) "a.png" {}).2.lastError
        = .Success ∧
      (getT (createTextureFile (fun _ => none) (initState { maxTextures := 4 }) "a.png" {}).2
        (createTextureFile (fun _ => none) (initState { maxTextures := 4 }) "a.png" {}).1.id).lastError
        = .FileNotFound)) :=
  ⟨by decide,
   c8_creation_failures (fun _ => none) (initState { maxTextures := 4 }) "a.png" {}
     none false 4 4 4 (by decide)⟩

/-! ### Eviction policy (claim C1) -/

/-- Destroy a list of textures in order (the effect of the eviction walk). -/
def applyDestroys (s : EngineState) (ids : List Nat) : EngineState :=
  ids.foldl destroyTexture s

theorem evictWalk_applyDestroys (target : Nat) :
    ∀ (l : List (Nat × Nat × Nat)) (st : EngineState),
      (evictWalk target l st).1 = applyDestroys st (evictWalk target l st).2 := by
  intro l
  induction l with
  | nil => intro st; rfl
  | cons e rest ih =>
    intro st
    rw [evictWalk]
    by_cases h : st.totalMemoryUsage ≤ target
    · rw [if_pos h]; rfl
    · rw [if_neg h]
      dsimp only
      show (evictWalk target rest (destroyTexture st e.2.2)).1
        = applyDestroys st (e.2.2 :: (evictWalk target rest (destroyTexture st e.2.2)).2)
      rw [ih]
      rfl

theorem evictWalk_take (target : Nat) :
    ∀ (l : List (Nat × Nat × Nat)) (st : EngineState),
      (evictWalk target l st).2
        = (l.map (fun e => e.2.2)).take (evictWalk target l st).2.length := by
  intro l
  induction l with
  | nil => intro st; rfl
  | cons e rest ih =>
    intro st
    rw [evictWalk]
    by_cases h : st.totalMemoryUsage ≤ target
    · rw [if_pos h]; rfl
    · rw [if_neg h]
      dsimp only
      simp only [List.map_cons, List.length_cons, List.take_succ_cons]
      exact congrArg (List.cons e.2.2) (ih (destroyTexture st e.2.2))

theorem evictWalk_stop (target : Nat) :
    ∀ (l : List (Nat × Nat × Nat)) (st : EngineState),
      (evictWalk target l st).1.totalMemoryUsage ≤ target ∨
      (evictWalk target l st).2.length = l.length := by
  intro l
  induction l with
  | nil => intro st; right; rfl
  | cons e rest ih =>
    intro st
    rw [evictWalk]
    by_cases h : st.totalMemoryUsage ≤ target
    · rw [if_pos h]; left; exact h
    · rw [if_neg h]
      dsimp only
      rcases ih (destroyTexture st e.2.2) with h1 | h1
      · left; exact h1
      · right
        simp only [List.length_cons]
        omega

theorem evictWalk_min (target : Nat) :
    ∀ (l : List (Nat × Nat × Nat)) (st : EngineState) (k : Nat),
      k < (evictWalk target l st).2.length →
      target < (applyDestroys st ((evictWalk target l st).2.take k)).totalMemoryUsage := by
  intro l
  induction l with
  | nil => intro st k hk; simp [evictWalk] at hk
  | cons e rest ih =>
    intro st k hk
    rw [evictWalk] at hk ⊢
    by_cases h : st.totalMemoryUsage ≤ target
    · rw [if_pos h] at hk
      simp at hk
    · rw [if_neg h] at hk ⊢
      dsimp only at hk ⊢
      cases k with
      | zero =>
        show target < (applyDestroys st []).totalMemoryUsage
        exact not_le.mp h
      | succ k' =>
        rw [List.take_succ_cons]
        show target < (applyDestroys (destroyTexture st e.2.2)
          ((evictWalk target rest (destroyTexture st e.2.2)).2.take k')).totalMemoryUsage
        apply ih
        simp only [List.length_cons] at hk
        omega

/-- Every entry of the eviction candidate list is a resident, non-pinned
texture outside its hold-down window, and its first two components are the
texture's priority score and `lastUsedFrame`. -/
theorem evictionCandidates_spec (s : EngineState) :
    ∀ e ∈ evictionCandidates s,
      e.2.2 < s.nextTextureId ∧
      (getT s e.2.2).resident = true ∧
      (getT s e.2.2).desc.evictionPriority ≠ .KeepResident ∧
      s.options.minResidentFrames ≤ sub32 s.currentFrame (getT s e.2.2).loadedFrame ∧
      e.1 = priorityScore (getT s e.2.2).desc.evictionPriority ∧
      e.2.1 = (getT s e.2.2).lastUsedFrame := by
  intro e he
  unfold evictionCandidates at he
  obtain ⟨i, hir, hfi⟩ := List.mem_filterMap.mp he
  dsimp only at hfi
  split at hfi
  · cases hfi
  · split at hfi
    · cases hfi
    · split at hfi
      · cases hfi
      · next hres hkeep hyoung =>
        obtain rfl : (priorityScore (getT s i).desc.evictionPriority,
            (getT s i).lastUsedFrame, i) = e := by injection hfi
        refine ⟨List.mem_range.mp hir, ?_, hkeep, not_lt.mp hyoung, rfl, rfl⟩
        revert hres
        cases (getT s i).resident <;> simp

/-- Entries of the sorted eviction list are candidates. -/
theorem sortedEvictionList_mem (s : EngineState) :
    ∀ e ∈ sortedEvictionList s, e ∈ evictionCandidates s := by
  intro e he
  exact (List.perm_insertionSort tripleLe (evictionCandidates s)).mem_iff.mp he

/-- C1: whenever the evictor actually runs (nonzero budget, incoming batch
over budget), the destroyed ids are exactly a maximal "still over target"
prefix of the candidate list sorted ascending by
`(priorityScore, lastUsedFrame)` — where the score maps Low to 0, Normal to
1, High to 2 — so: every destroyed texture was resident, not KeepResident,
and outside its hold-down window (`currentFrame - loadedFrame ≥
minResidentFrames`, wrapped `uint32_t` subtraction); the destruction order is
ascending in `(priorityScore, lastUsedFrame)`; the walk stops as soon as the
memory total reaches `maxTextureMemory - requiredMemory` (`size_t`
subtraction) or the candidates are exhausted; and the final state is exactly
the start state with the destroyed ids destroyed in order. -/
theorem c1_eviction_policy (s : EngineState) (required : Nat)
    (hmax : s.options.maxTextureMemory ≠ 0)
    (hforce : ¬ add64 s.totalMemoryUsage required ≤ s.options.maxTextureMemory) :
    (∀ i ∈ evictedIds s required,
      (getT s i).resident = true ∧
      (getT s i).desc.evictionPriority ≠ .KeepResident ∧
      s.options.minResidentFrames ≤ sub32 s.currentFrame (getT s i).loadedFrame) ∧
    (evictedIds s required).Pairwise (fun i j =>
      priorityScore (getT s i).desc.evictionPriority
          < priorityScore (getT s j).desc.evictionPriority ∨
      (priorityScore (getT s i).desc.evictionPriority
          = priorityScore (getT s j).desc.evictionPriority ∧
        (getT s i).lastUsedFrame ≤ (getT s j).lastUsedFrame)) ∧
    evictedIds s required
      = ((sortedEvictionList s).map (fun e => e.2.2)).take (evictedIds s required).length ∧
    ((evictIfNeeded s required).totalMemoryUsage ≤ sub64 s.options.maxTextureMemory required ∨
      (evictedIds s required).length = (sortedEvictionList s).length) ∧
    (∀ k, k < (evictedIds s required).length →
      sub64 s.options.maxTextureMemory required
        < (applyDestroys s ((evictedIds s required).take k)).totalMemoryUsage) ∧
    evictIfNeeded s required = applyDestroys s (evictedIds s required) := by
  have hfull : evictIfNeededFull s required
      = evictWalk (sub64 s.options.maxTextureMemory required) (sortedEvictionList s) s := by
    unfold evictIfNeededFull
    rw [if_neg hmax, if_neg hforce]
  have hids : evictedIds s required
      = (evictWalk (sub64 s.options.maxTextureMemory required) (sortedEvictionList s) s).2 := by
    unfold evictedIds
    rw [hfull]
  have hst : evictIfNeeded s required
      = (evictWalk (sub64 s.options.maxTextureMemory required) (sortedEvictionList s) s).1 := by
    unfold evictIfNeeded
    rw [hfull]
  refine ⟨?_, ?_, ?_, ?_, ?_, ?_⟩
  · -- exclusions
    intro i hi
    rw [hids] at hi
    have htake := evictWalk_take (sub64 s.options.maxTextureMemory required)
      (sortedEvictionList s) s
    rw [htake] at hi
    have hi' : i ∈ (sortedEvictionList s).map (fun e => e.2.2) :=
      List.mem_of_mem_take hi
    obtain ⟨e, he, hei⟩ := List.mem_map.mp hi'
    obtain ⟨_, h2, h3, h4, _, _⟩ := evictionCandidates_spec s e (sortedEvictionList_mem s e he)
    rw [← hei]
    exact ⟨h2, h3, h4⟩
  · -- ascending order
    rw [hids, evictWalk_take]
    have hsorted : (sortedEvictionList s).Pairwise tripleLe :=
      List.sorted_insertionSort tripleLe (evictionCandidates s)
    have hkeys : (sortedEvictionList s).Pairwise (fun a b =>
        priorityScore (getT s a.2.2).desc.evictionPriority
            < priorityScore (getT s b.2.2).desc.evictionPriority ∨
        (priorityScore (getT s a.2.2).desc.evictionPriority
            = priorityScore (getT s b.2.2).desc.evictionPriority ∧
          (getT s a.2.2).lastUsedFrame ≤ (getT s b.2.2).lastUsedFrame)) := by
      refine hsorted.imp_of_mem ?_
      intro a b ha hb hab
      obtain ⟨_, _, _, _, ha1, ha2⟩ := evictionCandidates_spec s a (sortedEvictionList_mem s a ha)
      obtain ⟨_, _, _, _, hb1, hb2⟩ := evictionCandidates_spec s b (sortedEvictionList_mem s b hb)
      rw [← ha1, ← ha2, ← hb1, ← hb2]
      unfold tripleLe at hab
      omega
    have hmapped : ((sortedEvictionList s).map (fun e => e.2.2)).Pairwise (fun i j =>
        priorityScore (getT s i).desc.evictionPriority
            < priorityScore (getT s j).desc.evictionPriority ∨
        (priorityScore (getT s i).desc.evictionPriority
            = priorityScore (getT s j).desc.evictionPriority ∧
          (getT s i).lastUsedFrame ≤ (getT s j).lastUsedFrame)) :=
      List.pairwise_map.mpr hkeys
    exact hmapped.sublist (List.take_sublist _ _)
  · rw [hids]
    exact evictWalk_take _ _ _
  · rw [hids, hst]
    exact evictWalk_stop _ _ _
  · intro k hk
    rw [hids] at hk ⊢
    exact evictWalk_min _ _ _ k hk
  · rw [hids, hst]
    exact evictWalk_applyDestroys _ _ _

/-- A state for exercising C1: three resident textures — id 0 Normal priority
last used at frame 9, id 1 Normal last used at frame 5, id 2 KeepResident —
with budget 100, total 110 and no hold-down. -/
def c1StateW : EngineState where
  options := { maxTextureMemory := 100, maxTextures := 3, minResidentFrames := 0 }
  textures :=
    [{ resident := true, memoryUsage := 60, texObj := true, array := true,
       lastUsedFrame := 9, loadedFrame := 0 },
     { resident := true, memoryUsage := 30, texObj := true, array := true,
       lastUsedFrame := 5, loadedFrame := 0 },
     { resident := true, memoryUsage := 20, texObj := true, array := true,
       lastUsedFrame := 1, loadedFrame := 0,
       desc := { evictionPriority := .KeepResident } }]
  nextTextureId := 3
  currentFrame := 10
  totalMemoryUsage := 110
  imageSourceToTextureId := []
  filenameHashToTextureId := []
  hTextures := [true, true, true]
  hResidentFlags := [7]
  lastRequestCount := 0
  lastRequestOverflow := false
  aborted := false
  destroying := false
  lastError := .Success

/-- C1 witness: the policy theorem applied at `c1StateW` with 40 required
bytes: the KeepResident texture is skipped, the older Normal texture (id 1)
is destroyed first, and the walk stops once the total reaches the target. -/
theorem c1_eviction_policy_witness :
    c1StateW.options.maxTextureMemory ≠ 0 ∧
    ¬ add64 c1StateW.totalMemoryUsage 40 ≤ c1StateW.options.maxTextureMemory ∧
    ((∀ i ∈ evictedIds c1StateW 40,
      (getT c1StateW i).resident = true ∧
      (getT c1StateW i).desc.evictionPriority ≠ .KeepResident ∧
      c1StateW.options.minResidentFrames
        ≤ sub32 c1StateW.currentFrame (getT c1StateW i).loadedFrame) ∧
    (evictedIds c1StateW 40).Pairwise (fun i j =>
      priorityScore (getT c1StateW i).desc.evictionPriority
          < priorityScore (getT c1StateW j).desc.evictionPriority ∨
      (priorityScore (getT c1StateW i).desc.evictionPriority
          = priorityScore (getT c1StateW j).desc.evictionPriority ∧
        (getT c1StateW i).lastUsedFrame ≤ (getT c1StateW j).lastUsedFrame)) ∧
    evictedIds c1StateW 40
      = ((sortedEvictionList c1StateW).map (fun e => e.2.2)).take (evictedIds c1StateW 40).length ∧
    ((evictIfNeeded c1StateW 40).totalMemoryUsage ≤ sub64 c1StateW.options.maxTextureMemory 40 ∨
      (evictedIds c1StateW 40).length = (sortedEvictionList c1StateW).length) ∧
    (∀ k, k < (evictedIds c1StateW 40).length →
      sub64 c1StateW.options.maxTextureMemory 40
        < (applyDestroys c1StateW ((evictedIds c1StateW 40).take k)).totalMemoryUsage) ∧
    evictIfNeeded c1StateW 40 = applyDestroys c1StateW (evictedIds c1StateW 40)) :=
  ⟨by decide, by decide, c1_eviction_policy c1StateW 40 (by decide) (by decide)⟩

/-! ### Deduplication (claim C5) -/

instance : Inhabited SourceObj := ⟨{ ptr := 0, hash := 0 }⟩

theorem lookupL_insertL (m : List (Nat × Nat)) (k v k' : Nat) :
    lookupL (insertL m k v) k' = if k = k' then some v else lookupL m k' := rfl

/-- The four outcomes of `createTexture(imageSource, desc)` for a non-null
source: pointer-map hit, content-hash hit (registering the pointer), capacity
failure, or allocation (registering the pointer, and the hash when
non-zero). -/
theorem createTextureSource_characterization (s : EngineState) (src : SourceObj)
    (desc : TextureDesc) :
    (∃ eid, lookupL s.imageSourceToTextureId src.ptr = some eid ∧
      createTextureSource s (some src) desc =
        ({ id := eid, valid := true, width := (getT s eid).width,
           height := (getT s eid).height, channels := (getT s eid).channels,
           error := .Success }, s)) ∨
    (lookupL s.imageSourceToTextureId src.ptr = none ∧ src.hash ≠ 0 ∧
      ∃ eid, lookupL s.filenameHashToTextureId src.hash = some eid ∧
      createTextureSource s (some src) desc =
        ({ id := eid, valid := true, width := (getT s eid).width,
           height := (getT s eid).height, channels := (getT s eid).channels,
           error := .Success },
         { s with imageSourceToTextureId :=
             insertL s.imageSourceToTextureId src.ptr eid })) ∨
    (lookupL s.imageSourceToTextureId src.ptr = none ∧
      (src.hash = 0 ∨ lookupL s.filenameHashToTextureId src.hash = none) ∧
      s.options.maxTextures ≤ s.nextTextureId ∧
      createTextureSource s (some src) desc =
        ({ id := 0, valid := false, error := .MaxTexturesExceeded },
         { s with lastError := .MaxTexturesExceeded })) ∨
    (lookupL s.imageSourceToTextureId src.ptr = none ∧
      (src.hash = 0 ∨ lookupL s.filenameHashToTextureId src.hash = none) ∧
      ¬ s.options.maxTextures ≤ s.nextTextureId ∧
      ∃ meta : TextureMetadata, meta.resident = false ∧
      createTextureSource s (some src) desc =
        ({ id := s.nextTextureId, valid := true, width := meta.width,
           height := meta.height, channels := meta.channels, error := .Success },
         { s with
           nextTextureId := s.nextTextureId + 1,
           imageSourceToTextureId :=
             insertL s.imageSourceToTextureId src.ptr s.nextTextureId,
           filenameHashToTextureId :=
             if src.hash ≠ 0 then
               insertL s.filenameHashToTextureId src.hash s.nextTextureId
             else s.filenameHashToTextureId,
           textures := s.textures.set s.nextTextureId meta,
           lastError := .Success })) := by
  unfold createTextureSource
  dsimp only
  cases hp : lookupL s.imageSourceToTextureId src.ptr with
  | some eid => exact Or.inl ⟨eid, rfl, rfl⟩
  | none =>
    refine Or.inr ?_
    by_cases hh : src.hash ≠ 0
    · rw [if_pos hh]
      cases hq : lookupL s.filenameHashToTextureId src.hash with
      | some eid => exact Or.inl ⟨rfl, hh, eid, rfl, rfl⟩
      | none =>
        refine Or.inr ?_
        by_cases hcap : s.options.maxTextures ≤ s.nextTextureId
        · rw [if_pos hcap]
          exact Or.inl ⟨rfl, Or.inr rfl, hcap, rfl⟩
        · rw [if_neg hcap]
          refine Or.inr ⟨rfl, Or.inr rfl, hcap, ?_⟩
          by_cases ho : src.openOk = true
          · rw [if_pos ho]
            exact ⟨_, rfl, rfl⟩
          · rw [if_neg ho]
            exact ⟨_, rfl, rfl⟩
    · rw [if_neg hh]
      refine Or.inr ?_
      have hh0 : src.hash = 0 := by omega
      by_cases hcap : s.options.maxTextures ≤ s.nextTextureId
      · rw [if_pos hcap]
        exact Or.inl ⟨rfl, Or.inl hh0, hcap, rfl⟩
      · rw [if_neg hcap]
        refine Or.inr ⟨rfl, Or.inl hh0, hcap, ?_⟩
        by_cases ho : src.openOk = true
        · rw [if_pos ho]
          exact ⟨_, rfl, by rw [if_neg hh]⟩
        · rw [if_neg ho]
          exact ⟨_, rfl, by rw [if_neg hh]⟩

/-- The registry invariant: any registered pointer whose object has a
non-zero content hash is also registered (to the same id) in the hash map.
(`H` fixes each pointer's content hash: `getHash` is deterministic.) -/
def RegInv (H : Nat → Nat) (s : EngineState) : Prop :=
  ∀ p id, lookupL s.imageSourceToTextureId p = some id →
    (H p = 0 ∨ lookupL s.filenameHashToTextureId (H p) = some id)

/-- The engine can no longer allocate ids. -/
def FullAt (s : EngineState) : Prop :=
  s.options.maxTextures ≤ s.nextTextureId

/-- What a creation with hash `h ≠ 0` will return, forever after the first
such creation: either the hash map pins the id, or the registry was already
full (and stays full) so the creation failed with id 0. -/
def HashSticky (h r : Nat) (s : EngineState) : Prop :=
  lookupL s.filenameHashToTextureId h = some r ∨
  (lookupL s.filenameHashToTextureId h = none ∧ FullAt s ∧ r = 0)

/-- What a creation with pointer `p` will return, forever after the first
such creation. -/
def PtrSticky (H : Nat → Nat) (p r : Nat) (s : EngineState) : Prop :=
  lookupL s.imageSourceToTextureId p = some r ∨
  (lookupL s.imageSourceToTextureId p = none ∧ FullAt s ∧ r = 0 ∧
    (H p ≠ 0 → lookupL s.filenameHashToTextureId (H p) = none))

theorem step_RegInv (H : Nat → Nat) (s : EngineState) (src : SourceObj)
    (desc : TextureDesc) (hsrc : src.hash = H src.ptr) (hinv : RegInv H s) :
    RegInv H (createTextureSource s (some src) desc).2 := by
  rcases createTextureSource_characterization s src desc with
    ⟨eid, hp, hc⟩ | ⟨hp, hh, eid, hq, hc⟩ | ⟨hp, hh, hcap, hc⟩ | ⟨hp, hh, hcap, meta, hmr, hc⟩
  · rw [hc]; exact hinv
  · rw [hc]
    intro p id hpid
    rw [lookupL_insertL] at hpid
    by_cases hps : src.ptr = p
    · rw [if_pos hps] at hpid
      obtain rfl : eid = id := by injection hpid
      right
      rw [← hps, ← hsrc]
      exact hq
    · rw [if_neg hps] at hpid
      exact hinv p id hpid
  · rw [hc]; exact hinv
  · rw [hc]
    intro p id hpid
    rw [lookupL_insertL] at hpid
    by_cases hps : src.ptr = p
    · rw [if_pos hps] at hpid
      obtain rfl : s.nextTextureId = id := by injection hpid
      by_cases hz : H p = 0
      · exact Or.inl hz
      · right
        show lookupL (if src.hash ≠ 0 then
            insertL s.filenameHashToTextureId src.hash s.nextTextureId
          else s.filenameHashToTextureId) (H p) = some s.nextTextureId
        have hnz : src.hash ≠ 0 := by rw [hsrc, hps]; exact hz
        rw [if_pos hnz, lookupL_insertL, if_pos (by rw [hsrc, hps])]
    · rw [if_neg hps] at hpid
      rcases hinv p id hpid with hz | hsome
      · exact Or.inl hz
      · right
        show lookupL (if src.hash ≠ 0 then
            insertL s.filenameHashToTextureId src.hash s.nextTextureId
          else s.filenameHashToTextureId) (H p) = some id
        by_cases hnz : src.hash ≠ 0
        · rw [if_pos hnz, lookupL_insertL]
          by_cases hsh : src.hash = H p
          · exfalso
            rcases hh with hh0 | hhnone
            · exact hnz hh0
            · rw [hsh] at hhnone
              rw [hhnone] at hsome
              cases hsome
          · rw [if_neg hsh]
            exact hsome
        · rw [if_neg hnz]
          exact hsome

theorem step_monotone (s : EngineState) (src : SourceObj) (desc : TextureDesc) :
    (createTextureSource s (some src) desc).2.options = s.options ∧
    s.nextTextureId ≤ (createTextureSource s (some src) desc).2.nextTextureId := by
  rcases createTextureSource_characterization s src desc with
    ⟨eid, hp, hc⟩ | ⟨hp, hh, eid, hq, hc⟩ | ⟨hp, hh, hcap, hc⟩ | ⟨hp, hh, hcap, meta, hmr, hc⟩ <;>
    rw [hc]
  · exact ⟨rfl, le_refl _⟩
  · exact ⟨rfl, le_refl _⟩
  · exact ⟨rfl, le_refl _⟩
  · exact ⟨rfl, Nat.le_succ _⟩

theorem step_FullAt (s : EngineState) (src : SourceObj) (desc : TextureDesc)
    (h : FullAt s) : FullAt (createTextureSource s (some src) desc).2 := by
  obtain ⟨ho, hn⟩ := step_monotone s src desc
  unfold FullAt at *
  rw [ho]
  omega

/-- When the registry is full no step ever inserts into the hash map. -/
theorem step_full_hashMap (s : EngineState) (src : SourceObj) (desc : TextureDesc)
    (h : FullAt s) :
    (createTextureSource s (some src) desc).2.filenameHashToTextureId
      = s.filenameHashToTextureId := by
  rcases createTextureSource_characterization s src desc with
    ⟨eid, hp, hc⟩ | ⟨hp, hh, eid, hq, hc⟩ | ⟨hp, hh, hcap, hc⟩ | ⟨hp, hh, hcap, meta, hmr, hc⟩ <;>
    rw [hc]
  · exact absurd h hcap

theorem step_hash_keep (H : Nat → Nat) (s : EngineState) (src : SourceObj)
    (desc : TextureDesc) (h r : Nat) (hsrc : src.hash = H src.ptr) (hnz : h ≠ 0)
    (hst : HashSticky h r s) :
    HashSticky h r (createTextureSource s (some src) desc).2 := by
  rcases createTextureSource_characterization s src desc with
    ⟨eid, hp, hc⟩ | ⟨hp, hh, eid, hq, hc⟩ | ⟨hp, hh, hcap, hc⟩ | ⟨hp, hh, hcap, meta, hmr, hc⟩
  · rw [hc]; exact hst
  · rw [hc]; exact hst
  · rw [hc]; exact hst
  · rw [hc]
    rcases hst with hsome | ⟨hnone, hfull, hr⟩
    · left
      show lookupL (if src.hash ≠ 0 then
          insertL s.filenameHashToTextureId src.hash s.nextTextureId
        else s.filenameHashToTextureId) h = some r
      by_cases hz : src.hash ≠ 0
      · rw [if_pos hz, lookupL_insertL]
        by_cases hsh : src.hash = h
        · exfalso
          rcases hh with h0 | hnone
          · exact hz h0
          · rw [hsh] at hnone
            rw [hnone] at hsome
            cases hsome
        · rw [if_neg hsh]
          exact hsome
      · rw [if_neg hz]
        exact hsome
    · exact absurd hfull hcap

theorem step_hash_establish (H : Nat → Nat) (s : EngineState) (src : SourceObj)
    (desc : TextureDesc) (hsrc : src.hash = H src.ptr) (hnz : src.hash ≠ 0)
    (hinv : RegInv H s) :
    HashSticky src.hash (createTextureSource s (some src) desc).1.id
      (createTextureSource s (some src) desc).2 := by
  rcases createTextureSource_characterization s src desc with
    ⟨eid, hp, hc⟩ | ⟨hp, hh, eid, hq, hc⟩ | ⟨hp, hh, hcap, hc⟩ | ⟨hp, hh, hcap, meta, hmr, hc⟩
  · rw [hc]
    rcases hinv src.ptr eid hp with hz | hsome
    · exact absurd (hsrc.trans hz) hnz
    · left
      rw [← hsrc] at hsome
      exact hsome
  · rw [hc]
    exact Or.inl hq
  · rw [hc]
    rcases hh with h0 | hnone
    · exact absurd h0 hnz
    · exact Or.inr ⟨hnone, hcap, rfl⟩
  · rw [hc]
    left
    show lookupL (if src.hash ≠ 0 then
        insertL s.filenameHashToTextureId src.hash s.nextTextureId
      else s.filenameHashToTextureId) src.hash = some s.nextTextureId
    rw [if_pos hnz, lookupL_insertL, if_pos rfl]

theorem step_hash_use (H : Nat → Nat) (s : EngineState) (src : SourceObj)
    (desc : TextureDesc) (r : Nat) (hsrc : src.hash = H src.ptr) (hnz : src.hash ≠ 0)
    (hinv : RegInv H s) (hst : HashSticky src.hash r s) :
    (createTextureSource s (some src) desc).1.id = r := by
  rcases createTextureSource_characterization s src desc with
    ⟨eid, hp, hc⟩ | ⟨hp, hh, eid, hq, hc⟩ | ⟨hp, hh, hcap, hc⟩ | ⟨hp, hh, hcap, meta, hmr, hc⟩
  · rw [hc]
    rcases hinv src.ptr eid hp with hz | hsome
    · exact absurd (hsrc.trans hz) hnz
    · rw [← hsrc] at hsome
      rcases hst with h1 | ⟨h1, _, _⟩
      · rw [hsome] at h1; injection h1
      · rw [hsome] at h1; cases h1
  · rw [hc]
    rcases hst with h1 | ⟨h1, _, _⟩
    · rw [hq] at h1; injection h1
    · rw [hq] at h1; cases h1
  · rw [hc]
    rcases hst with h1 | ⟨_, _, hr⟩
    · rcases hh with h0 | hnone
      · exact absurd h0 hnz
      · rw [hnone] at h1; cases h1
    · exact hr.symm
  · rcases hst with h1 | ⟨_, hfull, _⟩
    · rcases hh with h0 | hnone
      · exact absurd h0 hnz
      · rw [hnone] at h1; cases h1
    · exact absurd hfull hcap

theorem step_ptr_establish (H : Nat → Nat) (s : EngineState) (src : SourceObj)
    (desc : TextureDesc) (hsrc : src.hash = H src.ptr) :
    PtrSticky H src.ptr (createTextureSource s (some src) desc).1.id
      (createTextureSource s (some src) desc).2 := by
  rcases createTextureSource_characterization s src desc with
    ⟨eid, hp, hc⟩ | ⟨hp, hh, eid, hq, hc⟩ | ⟨hp, hh, hcap, hc⟩ | ⟨hp, hh, hcap, meta, hmr, hc⟩
  · rw [hc]
    exact Or.inl hp
  · rw [hc]
    left
    show lookupL (insertL s.imageSourceToTextureId src.ptr eid) src.ptr = some eid
    rw [lookupL_insertL, if_pos rfl]
  · rw [hc]
    refine Or.inr ⟨hp, hcap, rfl, fun hz => ?_⟩
    rcases hh with h0 | hnone
    · exact absurd (hsrc.symm.trans h0) hz
    · rw [← hsrc]
      exact hnone
  · rw [hc]
    left
    show lookupL (insertL s.imageSourceToTextureId src.ptr s.nextTextureId) src.ptr
      = some s.nextTextureId
    rw [lookupL_insertL, if_pos rfl]

theorem step_ptr_keep (H : Nat → Nat) (s : EngineState) (src : SourceObj)
    (desc : TextureDesc) (p r : Nat) (hsrc : src.hash = H src.ptr)
    (hst : PtrSticky H p r s) :
    PtrSticky H p r (createTextureSource s (some src) desc).2 := by
  rcases createTextureSource_characterization s src desc with
    ⟨eid, hp, hc⟩ | ⟨hp, hh, eid, hq, hc⟩ | ⟨hp, hh, hcap, hc⟩ | ⟨hp, hh, hcap, meta, hmr, hc⟩
  · rw [hc]; exact hst
  · rw [hc]
    rcases hst with hsome | ⟨hnone, hfull, hr, hhm⟩
    · left
      show lookupL (insertL s.imageSourceToTextureId src.ptr eid) p = some r
      rw [lookupL_insertL]
      by_cases hps : src.ptr = p
      · rw [hps] at hp
        rw [hp] at hsome
        cases hsome
      · rw [if_neg hps]
        exact hsome
    · right
      refine ⟨?_, hfull, hr, hhm⟩
      show lookupL (insertL s.imageSourceToTextureId src.ptr eid) p = none
      rw [lookupL_insertL]
      by_cases hps : src.ptr = p
      · exfalso
        have hz : H p ≠ 0 := by rw [← hps, ← hsrc]; exact hh
        have hnone2 := hhm hz
        rw [hsrc, hps] at hq
        rw [hnone2] at hq
        cases hq
      · rw [if_neg hps]
        exact hnone
  · rw [hc]; exact hst
  · rcases hst with hsome | ⟨hnone, hfull, hr, hhm⟩
    · rw [hc]
      left
      show lookupL (insertL s.imageSourceToTextureId src.ptr s.nextTextureId) p = some r
      rw [lookupL_insertL]
      by_cases hps : src.ptr = p
      · rw [hps] at hp
        rw [hp] at hsome
        cases hsome
      · rw [if_neg hps]
        exact hsome
    · exact absurd hfull hcap

theorem step_ptr_use (H : Nat → Nat) (s : EngineState) (src : SourceObj)
    (desc : TextureDesc) (r : Nat) (hsrc : src.hash = H src.ptr)
    (hst : PtrSticky H src.ptr r s) :
    (createTextureSource s (some src) desc).1.id = r := by
  rcases createTextureSource_characterization s src desc with
    ⟨eid, hp, hc⟩ | ⟨hp, hh, eid, hq, hc⟩ | ⟨hp, hh, hcap, hc⟩ | ⟨hp, hh, hcap, meta, hmr, hc⟩
  · rw [hc]
    rcases hst with hsome | ⟨hnone, _, _, _⟩
    · rw [hp] at hsome; injection hsome
    · rw [hp] at hnone; cases hnone
  · rw [hc]
    rcases hst with hsome | ⟨hnone, hfull, hr, hhm⟩
    · rw [hp] at hsome; cases hsome
    · exfalso
      have : lookupL s.filenameHashToTextureId (H src.ptr) = none :=
        hhm (by rw [← hsrc]; exact hh)
      rw [hsrc] at hq
      rw [this] at hq
      cases hq
  · rw [hc]
    rcases hst with hsome | ⟨_, _, hr, _⟩
    · rw [hp] at hsome; cases hsome
    · exact hr.symm
  · rcases hst with hsome | ⟨_, hfull, _, _⟩
    · rw [hp] at hsome; cases hsome
    · exact absurd hfull hcap

/-- The step changes the pointer map only at the stepped source's pointer. -/
theorem step_ptr_fresh (s : EngineState) (src : SourceObj) (desc : TextureDesc)
    (p : Nat) (hne : src.ptr ≠ p) :
    lookupL (createTextureSource s (some src) desc).2.imageSourceToTextureId p
      = lookupL s.imageSourceToTextureId p := by
  rcases createTextureSource_characterization s src desc with
    ⟨eid, hp, hc⟩ | ⟨hp, hh, eid, hq, hc⟩ | ⟨hp, hh, hcap, hc⟩ | ⟨hp, hh, hcap, meta, hmr, hc⟩
  · rw [hc]
  · rw [hc]
    show lookupL (insertL s.imageSourceToTextureId src.ptr eid) p = _
    rw [lookupL_insertL, if_neg hne]
  · rw [hc]
  · rw [hc]
    show lookupL (insertL s.imageSourceToTextureId src.ptr s.nextTextureId) p = _
    rw [lookupL_insertL, if_neg hne]

/-- Running a batch of `createTexture(imageSource, desc)` calls left to
right, collecting the returned handles. -/
def createRun (items : List (SourceObj × TextureDesc)) (s : EngineState) :
    List TextureHandle × EngineState :=
  match items with
  | [] => ([], s)
  | (src, desc) :: rest =>
      let r := createTextureSource s (some src) desc
      let rr := createRun rest r.2
      (r.1 :: rr.1, rr.2)

theorem createRun_length (items : List (SourceObj × TextureDesc)) (s : EngineState) :
    (createRun items s).1.length = items.length := by
  induction items generalizing s with
  | nil => rfl
  | cons x rest ih =>
    obtain ⟨src, desc⟩ := x
    simp [createRun, ih]

theorem createRun_state_append (a b : List (SourceObj × TextureDesc))
    (s : EngineState) :
    (createRun (a ++ b) s).2 = (createRun b (createRun a s).2).2 := by
  induction a generalizing s with
  | nil => rfl
  | cons x rest ih =>
    obtain ⟨src, desc⟩ := x
    simp [createRun, ih]

/-- Handle `j` of a run is the handle of the single step taken from the state
after the first `j` items, and the post-`take (j+1)` state is that step's
state. -/
theorem createRun_step_at (items : List (SourceObj × TextureDesc))
    (s : EngineState) (j : Nat) (hj : j < items.length) :
    (createRun items s).1.getD j {} =
      (createTextureSource ((createRun (items.take j) s).2)
        (some (items.getD j default).1) (items.getD j default).2).1 ∧
    (createRun (items.take (j + 1)) s).2 =
      (createTextureSource ((createRun (items.take j) s).2)
        (some (items.getD j default).1) (items.getD j default).2).2 := by
  induction items generalizing s j with
  | nil => exact absurd hj (by simp)
  | cons x rest ih =>
    obtain ⟨src, desc⟩ := x
    cases j with
    | zero =>
      constructor
      · rfl
      · show (createRun [(src, desc)] s).2 = _
        rfl
    | succ j' =>
      have hj' : j' < rest.length := by
        simp at hj
        omega
      obtain ⟨h1, h2⟩ := ih (createTextureSource s (some src) desc).2 j' hj'
      constructor
      · show (createRun rest (createTextureSource s (some src) desc).2).1.getD j' {} = _
        rw [h1]
        rfl
      · show (createRun ((src, desc) :: rest.take (j' + 1)) s).2 = _
        show (createRun (rest.take (j' + 1)) (createTextureSource s (some src) desc).2).2 = _
        rw [h2]
        rfl

theorem run_RegInv (H : Nat → Nat) (items : List (SourceObj × TextureDesc))
    (s : EngineState) (hall : ∀ x ∈ items, x.1.hash = H x.1.ptr)
    (hinv : RegInv H s) : RegInv H (createRun items s).2 := by
  induction items generalizing s with
  | nil => exact hinv
  | cons x rest ih =>
    obtain ⟨src, desc⟩ := x
    exact ih (createTextureSource s (some src) desc).2
      (fun y hy => hall y (List.mem_cons_of_mem _ hy))
      (step_RegInv H s src desc (hall (src, desc) (List.mem_cons_self _ _)) hinv)

theorem run_hash_keep (H : Nat → Nat) (items : List (SourceObj × TextureDesc))
    (s : EngineState) (h r : Nat) (hall : ∀ x ∈ items, x.1.hash = H x.1.ptr)
    (hnz : h ≠ 0) (hst : HashSticky h r s) :
    HashSticky h r (createRun items s).2 := by
  induction items generalizing s with
  | nil => exact hst
  | cons x rest ih =>
    obtain ⟨src, desc⟩ := x
    exact ih (createTextureSource s (some src) desc).2
      (fun y hy => hall y (List.mem_cons_of_mem _ hy))
      (step_hash_keep H s src desc h r (hall (src, desc) (List.mem_cons_self _ _)) hnz hst)

theorem run_ptr_keep (H : Nat → Nat) (items : List (SourceObj × TextureDesc))
    (s : EngineState) (p r : Nat) (hall : ∀ x ∈ items, x.1.hash = H x.1.ptr)
    (hst : PtrSticky H p r s) : PtrSticky H p r (createRun items s).2 := by
  induction items generalizing s with
  | nil => exact hst
  | cons x rest ih =>
    obtain ⟨src, desc⟩ := x
    exact ih (createTextureSource s (some src) desc).2
      (fun y hy => hall y (List.mem_cons_of_mem _ hy))
      (step_ptr_keep H s src desc p r (hall (src, desc) (List.mem_cons_self _ _)) hst)

theorem run_ptr_fresh (items : List (SourceObj × TextureDesc)) (s : EngineState)
    (p : Nat) (hall : ∀ x ∈ items, x.1.ptr ≠ p) :
    lookupL (createRun items s).2.imageSourceToTextureId p
      = lookupL s.imageSourceToTextureId p := by
  induction items generalizing s with
  | nil => rfl
  | cons x rest ih =>
    obtain ⟨src, desc⟩ := x
    show lookupL (createRun rest (createTextureSource s (some src) desc).2).2.imageSourceToTextureId p = _
    rw [ih (createTextureSource s (some src) desc).2
      (fun y hy => hall y (List.mem_cons_of_mem _ hy))]
    exact step_ptr_fresh s src desc p (hall (src, desc) (List.mem_cons_self _ _))

theorem createRun_options (items : List (SourceObj × TextureDesc))
    (s : EngineState) : (createRun items s).2.options = s.options := by
  induction items generalizing s with
  | nil => rfl
  | cons x rest ih =>
    obtain ⟨src, desc⟩ := x
    show (createRun rest (createTextureSource s (some src) desc).2).2.options = _
    rw [ih, (step_monotone s src desc).1]

theorem initState_RegInv (opts : LoaderOptions) (H : Nat → Nat) :
    RegInv H (initState opts) := by
  intro p id h
  simp [initState, lookupL] at h

/-- Two creations in a run that share a source pointer, earlier one first,
return the same id. -/
theorem run_ptr_dedup_lt (H : Nat → Nat) (items : List (SourceObj × TextureDesc))
    (s : EngineState) (hall : ∀ x ∈ items, x.1.hash = H x.1.ptr)
    (i j : Nat) (hij : i < j) (hj : j < items.length)
    (hp : (items.getD i default).1.ptr = (items.getD j default).1.ptr) :
    ((createRun items s).1.getD i {}).id = ((createRun items s).1.getD j {}).id := by
  have hi : i < items.length := lt_trans hij hj
  obtain ⟨hhi, hsi⟩ := createRun_step_at items s i hi
  obtain ⟨hhj, hsj⟩ := createRun_step_at items s j hj
  have hmemi : items.getD i default ∈ items := by
    rw [List.getD_eq_getElem items default hi]
    exact List.getElem_mem hi
  have hmemj : items.getD j default ∈ items := by
    rw [List.getD_eq_getElem items default hj]
    exact List.getElem_mem hj
  have hstB : PtrSticky H (items.getD i default).1.ptr
      ((createRun items s).1.getD i {}).id (createRun (items.take (i + 1)) s).2 := by
    rw [hhi, hsi]
    exact step_ptr_establish H _ _ _ (hall _ hmemi)
  have hsplit : items.take j = items.take (i + 1) ++ (items.drop (i + 1)).take (j - (i + 1)) := by
    rw [← List.take_add]
    congr 1
    omega
  have hstC : PtrSticky H (items.getD i default).1.ptr
      ((createRun items s).1.getD i {}).id (createRun (items.take j) s).2 := by
    rw [hsplit, createRun_state_append]
    exact run_ptr_keep H _ _ _ _
      (fun x hx => hall x (List.mem_of_mem_drop (List.mem_of_mem_take hx)))
      hstB
  rw [hhj]
  exact (step_ptr_use H (createRun (items.take j) s).2 (items.getD j default).1
    (items.getD j default).2 ((createRun items s).1.getD i {}).id
    (hall _ hmemj) (by rw [← hp]; exact hstC)).symm

/-- Two creations in a run that share a non-zero content hash, earlier one
first, return the same id. -/
theorem run_hash_dedup_lt (H : Nat → Nat) (items : List (SourceObj × TextureDesc))
    (s : EngineState) (hall : ∀ x ∈ items, x.1.hash = H x.1.ptr)
    (hinv : RegInv H s) (i j : Nat) (hij : i < j) (hj : j < items.length)
    (hh : (items.getD i default).1.hash = (items.getD j default).1.hash)
    (hnz : (items.getD i default).1.hash ≠ 0) :
    ((createRun items s).1.getD i {}).id = ((createRun items s).1.getD j {}).id := by
  have hi : i < items.length := lt_trans hij hj
  obtain ⟨hhi, hsi⟩ := createRun_step_at items s i hi
  obtain ⟨hhj, hsj⟩ := createRun_step_at items s j hj
  have hmemi : items.getD i default ∈ items := by
    rw [List.getD_eq_getElem items default hi]
    exact List.getElem_mem hi
  have hmemj : items.getD j default ∈ items := by
    rw [List.getD_eq_getElem items default hj]
    exact List.getElem_mem hj
  have hinvA : RegInv H (createRun (items.take i) s).2 :=
    run_RegInv H _ s (fun x hx => hall x (List.mem_of_mem_take hx)) hinv
  have hinvC : RegInv H (createRun (items.take j) s).2 :=
    run_RegInv H _ s (fun x hx => hall x (List.mem_of_mem_take hx)) hinv
  have hstB : HashSticky (items.getD i default).1.hash
      ((createRun items s).1.getD i {}).id (createRun (items.take (i + 1)) s).2 := by
    rw [hhi, hsi]
    exact step_hash_establish H _ _ _ (hall _ hmemi) hnz hinvA
  have hsplit : items.take j = items.take (i + 1) ++ (items.drop (i + 1)).take (j - (i + 1)) := by
    rw [← List.take_add]
    congr 1
    omega
  have hstC : HashSticky (items.getD i default).1.hash
      ((createRun items s).1.getD i {}).id (createRun (items.take j) s).2 := by
    rw [hsplit, createRun_state_append]
    exact run_hash_keep H _ _ _ _
      (fun x hx => hall x (List.mem_of_mem_drop (List.mem_of_mem_take hx)))
      hnz hstB
  rw [hhj]
  refine (step_hash_use H (createRun (items.take j) s).2 (items.getD j default).1
    (items.getD j default).2 ((createRun items s).1.getD i {}).id
    (hall _ hmemj) (by rw [← hh]; exact hnz) hinvC ?_).symm
  rw [← hh]
  exact hstC

/-- **C5** (amended).  Across any batch of `createTexture(imageSource, desc)`
calls from a fresh engine (each object's `getContentHash` being a fixed
function `H` of its identity): (i) two creations sharing a source pointer
return the same id; (ii) two creations sharing a non-zero content hash
return the same id; (iii) a creation whose source reports content hash 0 and
whose pointer is fresh never matches an existing texture — it allocates a
brand-new id — PROVIDED the texture-count limit is not yet reached (the
original claim's unconditional "always allocates a new id" fails at
capacity, see the counterexample). -/
theorem c5_dedup (opts : LoaderOptions) (H : Nat → Nat)
    (items : List (SourceObj × TextureDesc))
    (hall : ∀ x ∈ items, x.1.hash = H x.1.ptr)
    (i j : Nat) (hi : i < items.length) (hj : j < items.length) :
    ((items.getD i default).1.ptr = (items.getD j default).1.ptr →
      ((createRun items (initState opts)).1.getD i {}).id
        = ((createRun items (initState opts)).1.getD j {}).id) ∧
    ((items.getD i default).1.hash = (items.getD j default).1.hash →
      (items.getD i default).1.hash ≠ 0 →
      ((createRun items (initState opts)).1.getD i {}).id
        = ((createRun items (initState opts)).1.getD j {}).id) ∧
    ((items.getD j default).1.hash = 0 →
      (∀ x ∈ items.take j, x.1.ptr ≠ (items.getD j default).1.ptr) →
      ¬ opts.maxTextures ≤ (createRun (items.take j) (initState opts)).2.nextTextureId →
      ((createRun items (initState opts)).1.getD j {}).valid = true ∧
      ((createRun items (initState opts)).1.getD j {}).id
        = (createRun (items.take j) (initState opts)).2.nextTextureId ∧
      (createRun (items.take (j + 1)) (initState opts)).2.nextTextureId
        = (createRun (items.take j) (initState opts)).2.nextTextureId + 1) := by
  refine ⟨?_, ?_, ?_⟩
  · intro hp
    rcases Nat.lt_trichotomy i j with hij | rfl | hji
    · exact run_ptr_dedup_lt H items (initState opts) hall i j hij hj hp
    · rfl
    · exact (run_ptr_dedup_lt H items (initState opts) hall j i hji hi hp.symm).symm
  · intro hh hnz
    rcases Nat.lt_trichotomy i j with hij | rfl | hji
    · exact run_hash_dedup_lt H items (initState opts) hall
        (initState_RegInv opts H) i j hij hj hh hnz
    · rfl
    · exact (run_hash_dedup_lt H items (initState opts) hall
        (initState_RegInv opts H) j i hji hi hh.symm (by rw [← hh]; exact hnz)).symm
  · intro hz hfresh hcap
    obtain ⟨hhj, hsj⟩ := createRun_step_at items (initState opts) j hj
    have hpm : lookupL
        (createRun (items.take j) (initState opts)).2.imageSourceToTextureId
        (items.getD j default).1.ptr = none := by
      rw [run_ptr_fresh _ _ _ hfresh]
      rfl
    have hopt : (createRun (items.take j) (initState opts)).2.options = opts :=
      createRun_options _ _
    rcases createTextureSource_characterization
        (createRun (items.take j) (initState opts)).2 (items.getD j default).1
        (items.getD j default).2 with
      ⟨eid, hp1, hc⟩ | ⟨hp1, hh1, eid, hq1, hc⟩ | ⟨hp1, hh1, hcap1, hc⟩ |
      ⟨hp1, hh1, hcap1, meta, hmr, hc⟩
    · rw [hpm] at hp1
      cases hp1
    · exact absurd hz hh1
    · rw [hopt] at hcap1
      exact absurd hcap1 hcap
    · refine ⟨?_, ?_, ?_⟩
      · rw [hhj, hc]
      · rw [hhj, hc]
      · rw [hsj, hc]

/-- The concrete dedup scenario of the spec: reader A (pointer 10) and
reader B (pointer 11) both report content hash 0xAA; reader C (pointer 12)
reports hash 0. -/
def c5Items : List (SourceObj × TextureDesc) :=
  [({ ptr := 10, hash := 170 }, {}), ({ ptr := 11, hash := 170 }, {}),
   ({ ptr := 12, hash := 0 }, {})]

/-- The content-hash oracle of that scenario. -/
def c5H : Nat → Nat :=
  fun p => if p = 10 then 170 else if p = 11 then 170 else 0

theorem c5_dedup_witness :
    ((createRun c5Items (initState { maxTextures := 4 })).1.getD 0 {}).id
      = ((createRun c5Items (initState { maxTextures := 4 })).1.getD 1 {}).id ∧
    ((createRun c5Items (initState { maxTextures := 4 })).1.getD 2 {}).valid = true ∧
    ((createRun c5Items (initState { maxTextures := 4 })).1.getD 2 {}).id
      = (createRun (c5Items.take 2) (initState { maxTextures := 4 })).2.nextTextureId := by
  have h01 := c5_dedup { maxTextures := 4 } c5H c5Items (by decide) 0 1
    (by decide) (by decide)
  have h02 := c5_dedup { maxTextures := 4 } c5H c5Items (by decide) 0 2
    (by decide) (by decide)
  exact ⟨h01.2.1 (by decide) (by decide),
    (h02.2.2 (by decide) (by decide) (by decide)).1,
    (h02.2.2 (by decide) (by decide) (by decide)).2.1⟩

/-- Two sources with content hash 0 and distinct, fresh pointers, run against
`max_textures = 1`. -/
def c5CItems : List (SourceObj × TextureDesc) :=
  [({ ptr := 1, hash := 0 }, {}), ({ ptr := 2, hash := 0 }, {})]

/-- C5 counterexample: with `max_textures = 1`, the second creation has
content hash 0 and a fresh pointer yet allocates NO new id — it fails with
`MaxTexturesExceeded` and `nextTextureId_` stays 1 — refuting the claim's
"a creation whose source reports hash 0 (and a fresh pointer) always
allocates a new id". -/
theorem c5_counterexample :
    ((createRun c5CItems (initState { maxTextures := 1 })).1.getD 1 {}).valid = false ∧
    ((createRun c5CItems (initState { maxTextures := 1 })).1.getD 1 {}).error
      = .MaxTexturesExceeded ∧
    (createRun c5CItems (initState { maxTextures := 1 })).2.nextTextureId = 1 := by
  exact ⟨rfl, rfl, rfl⟩

/-- C2 counterexample: in exactly the claim's scenario S1 the total texture
memory is 21840, not 21824 (the spec's arithmetic `Σ_{k=0..5}(32/2^k)² = 1364`
is off by the 1×1 level: the sum is 1365). -/
theorem c2_scenarioS1_counterexample :
    let opts : LoaderOptions :=
      { maxTextures := 4, maxRequestsPerLaunch := 16, maxTextureMemory := 0 }
    let s1 := (createTextureFromMemory (initState opts) true 32 32 4 {}).2
    let s2 := (createTextureFromMemory s1 true 32 32 4 {}).2
    let s3 := (createTextureFromMemory s2 true 32 32 4 {}).2
    let s4 := (createTextureFromMemory s3 true 32 32 4 {}).2
    let r := processRequests (fun _ => none) s4 16 4 0 [0, 1, 2, 3]
    getTotalTextureMemory r.2 ≠ 21824 := by
  decide

end HipDemand
